import Mathlib

/-!
# CISO container encoder (`main.cpp`): embedding and verified properties

The program converts an Xbox disc image into a CISO container.  This file
embeds `main.cpp` in Lean and proves (or refutes) properties of it.

Modelling conventions.

* A file is the list of its bytes (`List Nat`, each byte a number below 256).
* `std::ifstream` is a record of the file contents, the read position and the
  `eofbit` / `failbit` state flags.  The stream operations follow the C++11
  library rules: every input function first builds a sentry, which fails (and
  sets `failbit`) unless the stream is `good()`; `seekg` clears `eofbit` before
  building its sentry; `tellg` returns `-1` on a stream that is not good; `read`
  sets `eofbit | failbit` when fewer than the requested characters are
  available.  Seeking a file stream beyond the end of the file succeeds (the
  position is simply set).  No exceptions are enabled on the streams, so the
  `catch` blocks of `detect_iso_type` are never entered.
* `std::ofstream` is a record of the bytes written so far together with the
  field width and fill character used by formatted insertion.
* Machine integers are `Nat` / `Int` with explicit reduction modulo `2^32`
  and `2^64`; `size_t` is 64 bits wide and the machine is little-endian.
* `exit(n)` is `Except.error n`.
* Whether the file system lets the program open its input file and create its
  two output files is not decided by the program: it is a parameter of a run
  (`Env`).  The program checks none of the three streams after opening them.
  A write to a stream that is open and has not failed always goes through.
-/

namespace Ciso

/-! ## Constants -/

/-- Source: `const uint32_t FATX_SIZE_LIMIT = 0xFFBF6000;` -/
def FATX_SIZE_LIMIT : Nat := 0xFFBF6000

/-- Source: `const std::string CISO_MAGIC = "CISO";` -/
def CISO_MAGIC : List Nat := [0x43, 0x49, 0x53, 0x4F]

/-- Source: `const uint32_t CISO_HEADER_SIZE = 0x18;` -/
def CISO_HEADER_SIZE : Nat := 0x18

/-- Source: `const uint32_t CISO_BLOCK_SIZE = 0x800;` -/
def CISO_BLOCK_SIZE : Nat := 0x800

/-- Source: `const uint32_t CISO_PLAIN_BLOCK = 0x80000000;` -/
def CISO_PLAIN_BLOCK : Nat := 0x80000000

/-- The bytes of the string literal `"MICROSOFT*XBOX*MEDIA"` that
`detect_iso_type` compares its 20-byte buffer with. -/
def XBOX_MEDIA_MAGIC : List Nat :=
  [77, 73, 67, 82, 79, 83, 79, 70, 84, 42, 88, 66, 79, 88, 42, 77, 69, 68, 73, 65]

/-! ## Machine integer conversions -/

/-- Conversion to `int32_t`: two's complement truncation. -/
def to_int32 (x : Int) : Int := (x + 2 ^ 31) % 2 ^ 32 - 2 ^ 31

/-- Conversion to `size_t` (64 bits): reduction modulo `2^64`. -/
def to_size_t (x : Int) : Nat := (x % 2 ^ 64).toNat

/-- Conversion to `uint32_t`: reduction modulo `2^32`. -/
def to_uint32 (x : Nat) : Nat := x % 2 ^ 32

/-- Conversion to `char`, kept as the byte value that reaches the file. -/
def to_char (x : Nat) : Nat := x % 256

/-! ## Input streams -/

/-- State of a `std::ifstream` opened on a file. -/
structure IfStream where
  data : List Nat
  pos : Nat
  eofbit : Bool
  failbit : Bool
  deriving DecidableEq, Repr

namespace IfStream

/-- A stream freshly opened on the file `data`: `std::ifstream fin(infile, std::ios::binary)`. -/
def open_file (data : List Nat) : IfStream :=
  { data := data, pos := 0, eofbit := false, failbit := false }

/-- A stream whose file could not be opened: `failbit` is set. -/
def not_opened : IfStream :=
  { data := [], pos := 0, eofbit := false, failbit := true }

/-- The constructor `std::ifstream fin(infile, std::ios::binary)` for a file
with the contents `data`; `can_open` tells whether the file can be opened. -/
def construct (can_open : Bool) (data : List Nat) : IfStream :=
  if can_open then open_file data else not_opened

/-- Library `good()`: no state flag is set. -/
def good (f : IfStream) : Bool := !f.eofbit && !f.failbit

/-- Library `seekg(pos)`: clears `eofbit`, then seeks unless the stream has failed. -/
def seekg (f : IfStream) (p : Nat) : IfStream :=
  if f.failbit then { f with eofbit := false }
  else { f with eofbit := false, pos := p }

/-- Library `seekg(0, std::ios::end)`: clears `eofbit`, then moves to the end of
the file unless the stream has failed. -/
def seekg_end (f : IfStream) : IfStream :=
  if f.failbit then { f with eofbit := false }
  else { f with eofbit := false, pos := f.data.length }

/-- Library `tellg()`: the position of a good stream; `-1` (and `failbit`)
otherwise. -/
def tellg (f : IfStream) : Int × IfStream :=
  if f.good then ((f.pos : Int), f) else (-1, { f with failbit := true })

/-- Library `read(buf, n)`: copies the available characters (at most `n`) over
the start of `buf`; a short read sets `eofbit | failbit`; a stream that is not
good reads nothing. -/
def read (f : IfStream) (buf : List Nat) (n : Nat) : List Nat × IfStream :=
  if f.good then
    let got := (f.data.drop f.pos).take n
    let buf1 := got ++ buf.drop got.length
    let f1 := { f with pos := f.pos + got.length }
    if got.length = n then (buf1, f1)
    else (buf1, { f1 with eofbit := true, failbit := true })
  else (buf, { f with failbit := true })

end IfStream

/-! ## Layout detection -/

/-- Source: `detect_iso_type` (lines 18-47).  The result is the value left
in the global `image_offset` together with the final state of the stream, or
the exit status. -/
def detect_iso_type (f : IfStream) : Except Nat (Nat × IfStream) :=
  let f1 := f.seekg 0x18310000
  let t1 := f1.tellg
  let r1 : List Nat × IfStream :=
    if t1.1 = 0x18310000 then t1.2.read (List.replicate 20 0) 20 else ([], t1.2)
  if t1.1 = 0x18310000 ∧ r1.1 = XBOX_MEDIA_MAGIC then
    Except.ok (0x18300000, r1.2)
  else
    let f2 := r1.2.seekg 0x10000
    let t2 := f2.tellg
    let r2 : List Nat × IfStream :=
      if t2.1 = 0x10000 then t2.2.read (List.replicate 20 0) 20 else ([], t2.2)
    if t2.1 = 0x10000 ∧ r2.1 = XBOX_MEDIA_MAGIC then
      Except.ok (0, r2.2)
    else
      Except.error 1

/-- The 20 bytes of a file that start at byte offset `p` (fewer when the file
ends earlier). -/
def bytes_at (data : List Nat) (p : Nat) : List Nat := (data.drop p).take 20

/-! ## The environment of a run -/

/-- What the file system grants to a run of the program: whether the input
file can be opened for reading (`std::ifstream fin(infile, ...)`), whether
`infile + ".1.cso"` can be created (`std::ofstream fout_1(...)`), and whether
`infile + ".2.cso"` can be created (`fout_2.open(...)`). -/
structure Env where
  fin_opens : Bool
  fout_1_opens : Bool
  fout_2_opens : Bool
  deriving DecidableEq, Repr

/-! ## Output streams -/

/-- State of a `std::ofstream`: whether a file is open, whether the stream has
failed (`failbit` or `badbit`), the bytes written so far (all writes of the
program are sequential), and the `width` / `fill` formatting state. -/
structure OfStream where
  is_open : Bool
  failbit : Bool
  bytes : List Nat
  width : Nat
  fill : Nat
  deriving DecidableEq, Repr

namespace OfStream

/-- A default-constructed stream: `std::ofstream fout_2;`. -/
def closed : OfStream :=
  { is_open := false, failbit := false, bytes := [], width := 0, fill := 32 }

/-- A stream constructed on a new (truncated) file:
`std::ofstream fout_1(infile + ".1.cso", std::ios::binary)`. -/
def created : OfStream :=
  { is_open := true, failbit := false, bytes := [], width := 0, fill := 32 }

/-- Library `open(name, std::ios::binary)`; `can_create` tells whether the file
system lets the file be created.  The call fails (sets `failbit`) on a stream
that is already open and when the file cannot be created; otherwise it starts
an empty file and clears the state. -/
def open_file (f : OfStream) (can_create : Bool) : OfStream :=
  if f.is_open then { f with failbit := true }
  else if can_create then { f with is_open := true, failbit := false, bytes := [] }
  else { f with failbit := true }

/-- The constructor `std::ofstream f(name, std::ios::binary)`: a default
stream on which `open` is called. -/
def construct (can_create : Bool) : OfStream := closed.open_file can_create

/-- Whether an output operation goes through. -/
def good (f : OfStream) : Bool := f.is_open && !f.failbit

/-- Library `write(s, n)` (unformatted): appends the characters. -/
def write (f : OfStream) (s : List Nat) : OfStream :=
  if f.good then { f with bytes := f.bytes ++ s } else { f with failbit := true }

/-- Formatted insertion of a character sequence (`operator<<` for
`std::string`, `const char*` and `char`): the sequence is padded on the left
with the fill character up to the field width, and the width is reset to 0. -/
def insert (f : OfStream) (s : List Nat) : OfStream :=
  if f.good then
    { f with bytes := f.bytes ++ List.replicate (f.width - s.length) f.fill ++ s, width := 0 }
  else { f with failbit := true }

/-- Library `width(n)`; the old width is read separately as `f.width`. -/
def set_width (f : OfStream) (n : Nat) : OfStream := { f with width := n }

/-- Library `fill(c)`. -/
def set_fill (f : OfStream) (c : Nat) : OfStream := { f with fill := c }

/-- Library `tellp()`: the write position, `-1` on a failed stream. -/
def tellp (f : OfStream) : Int := if f.failbit then -1 else (f.bytes.length : Int)

end OfStream

/-! ## The container descriptor -/

/-- Source: the data members of `class ciso` (lines 51-56). -/
structure ciso where
  magic : List Nat
  ver : Nat
  block_size : Nat
  total_bytes : Nat
  total_blocks : Nat
  align : Nat
  deriving DecidableEq, Repr

/-- The four bytes of a 32-bit word in memory (little-endian). -/
def le32 (x : Nat) : List Nat :=
  [x % 256, x / 2 ^ 8 % 256, x / 2 ^ 16 % 256, x / 2 ^ 24 % 256]

/-- The C string found at an address: the bytes before the first NUL. -/
def c_str (mem : List Nat) : List Nat := mem.takeWhile (fun b => b != 0)

namespace ciso

/-- Source: `ciso (uint32_t total_bytes)` (lines 58-61); the argument is a
32-bit value. -/
def ciso_uint32 (total_bytes : Nat) : ciso :=
  { magic := CISO_MAGIC, ver := 2, block_size := CISO_BLOCK_SIZE,
    total_bytes := total_bytes, total_blocks := total_bytes / CISO_BLOCK_SIZE, align := 2 }

/-- Source: `ciso (std::ifstream &f)` (lines 63-67), with the global
`image_offset` (a `size_t`) as a parameter.  Returns the descriptor and the
stream as the constructor leaves it. -/
def ciso_ifstream (f : IfStream) (image_offset : Nat) : ciso × IfStream :=
  let f1 := f.seekg_end
  let t := f1.tellg
  let file_size : Nat :=
    to_uint32 (to_size_t ((to_size_t (to_int32 t.1) : Int) - (image_offset : Int)))
  (ciso_uint32 file_size, t.2)

/-- Source: `ciso (const char* filename)` (lines 69-72), for a file with the
contents `data`. -/
def ciso_filename (data : List Nat) (image_offset : Nat) : ciso :=
  (ciso_ifstream (IfStream.open_file data) image_offset).1

/-- Source: `get_block_size`. -/
def get_block_size (c : ciso) : Nat := c.block_size

/-- Source: `get_total_blocks`. -/
def get_total_blocks (c : ciso) : Nat := c.total_blocks

/-- Source: `get_align`. -/
def get_align (c : ciso) : Nat := c.align

/-- The bytes of the object from the member `ver` on: the five `uint32_t`
members lie one after the other in declaration order.  A C string read from
one of them runs on into the next members until a NUL byte; the member
`align = 2` of every constructed descriptor ends it inside the object. -/
def object_bytes (c : ciso) : List Nat :=
  le32 c.ver ++ le32 c.block_size ++ le32 c.total_bytes ++ le32 c.total_blocks ++ le32 c.align

/-- Source: `write_header` (lines 80-94).  Every `reinterpret_cast<char*>(&x)`
that is streamed with `<<` is inserted as the C string that starts at the
first byte of `x`. -/
def write_header (c : ciso) (f : OfStream) : OfStream :=
  let f := f.insert c.magic
  let old_streamsize := f.width
  let f := f.set_width 2
  let f := f.set_fill 0
  let f := f.insert (c_str (le32 CISO_HEADER_SIZE))
  let f := f.set_width 4
  let f := f.insert (c_str (c.object_bytes.drop 8))
  let f := f.set_width 2
  let f := f.insert (c_str (c.object_bytes.drop 4))
  let f := f.set_width 1
  let f := f.insert (c_str c.object_bytes)
  let f := f.insert (c_str (c.object_bytes.drop 16))
  let f := f.set_width 2
  let f := f.insert [0]
  f.set_width old_streamsize

/-- Source: `char a = i & 0xFF;` (line 99). -/
def char_a (i : Nat) : Nat := to_char (i &&& 0xFF)

/-- Source: `char b = (i >> 4) & 0xFF;` (line 100). -/
def char_b (i : Nat) : Nat := to_char ((i >>> 4) &&& 0xFF)

/-- Source: `char c = (i >> 8) & 0xFF;` (line 101). -/
def char_c (i : Nat) : Nat := to_char ((i >>> 8) &&& 0xFF)

/-- Source: `char d = (i >> 12);` (line 102). -/
def char_d (i : Nat) : Nat := to_char (i >>> 12)

/-- The four bytes that `write_block_index` emits for the entry `i`, in order. -/
def entry_bytes (i : Nat) : List Nat := [char_a i, char_b i, char_c i, char_d i]

/-- Source: `write_block_index` (lines 96-109): the four characters of each
entry are written one by one. -/
def write_block_index (f : OfStream) (block_index : List Nat) : OfStream :=
  block_index.foldl
    (fun f i => (((f.write [char_a i]).write [char_b i]).write [char_c i]).write [char_d i])
    f

end ciso

/-- Source: `pad_file_size` (lines 122-127).  The `seekp(0, std::ios::end)`
leaves the write position at the end of the file, where the sequential writes
of the program already are. -/
def pad_file_size (f : OfStream) : OfStream :=
  let size := to_size_t f.tellp
  let zero := List.replicate (0x400 - (size &&& 0x3FF)) 0
  f.insert zero

/-! ## The block loop of `compress_iso` -/

/-- The variables of `compress_iso` that the block loop reads and writes.
`split_second` is true when `split_fout == &fout_2`. -/
structure LoopState where
  fout_1 : OfStream
  fout_2 : OfStream
  split_second : Bool
  fin : IfStream
  write_pos : Nat
  block_index : List Nat
  raw_data : List Nat
  deriving DecidableEq, Repr

/-- Source: `uint32_t align_b = 1 << ciso.get_align();` -/
def align_b (c : ciso) : Nat := to_uint32 (1 <<< c.get_align)

/-- Source: `uint32_t align_m = align_b - 1;` -/
def align_m (c : ciso) : Nat := to_uint32 (align_b c + 2 ^ 32 - 1)

/-- Source: `std::string alignment_buffer(64, '\0')`, as `c_str()` exposes it
(with its terminating NUL). -/
def alignment_buffer : List Nat := List.replicate 64 0 ++ [0]

/-- Source: `std::string raw_data(0x800, '\0');` -/
def raw_data_init : List Nat := List.replicate 0x800 0

/-- Source: lines 156-161, the split check. -/
def split_check (env : Env) (s : LoopState) : LoopState :=
  if s.write_pos > FATX_SIZE_LIMIT then
    { s with fout_2 := s.fout_2.open_file env.fout_2_opens, split_second := true,
             write_pos := 0 }
  else s

/-- Write through `split_fout`. -/
def split_write (s : LoopState) (bytes : List Nat) : LoopState :=
  if s.split_second then { s with fout_2 := s.fout_2.write bytes }
  else { s with fout_1 := s.fout_1.write bytes }

/-- Source: lines 163-169, the alignment step. -/
def write_alignment (c : ciso) (s : LoopState) : LoopState :=
  let align := to_uint32 (s.write_pos &&& align_m c)
  if align ≠ 0 then
    let align := to_uint32 (align_b c + 2 ^ 32 - align)
    let s := split_write s (alignment_buffer.take align)
    { s with write_pos := (s.write_pos + align) % 2 ^ 64 }
  else s

/-- Source: line 172, `block_index[block] = write_pos >> ciso.get_align();` -/
def mark_offset (c : ciso) (s : LoopState) (block : Nat) : LoopState :=
  { s with block_index := s.block_index.set block (to_uint32 (s.write_pos >>> c.get_align)) }

/-- Source: line 175, `fin.read(&raw_data[0], ciso.get_block_size());` -/
def read_raw (c : ciso) (s : LoopState) : LoopState :=
  let r := s.fin.read s.raw_data c.get_block_size
  { s with raw_data := r.1, fin := r.2 }

/-- Source: lines 155-177, one iteration of the block loop. -/
def loop_body (env : Env) (c : ciso) (s : LoopState) (block : Nat) : LoopState :=
  read_raw c (mark_offset c (write_alignment c (split_check env s)) block)

/-- The state of the loop when `n` iterations have run (blocks `0 .. n-1`). -/
def loop_state (env : Env) (c : ciso) (init : LoopState) (n : Nat) : LoopState :=
  (List.range n).foldl (loop_body env c) init

/-- What `compress_iso` has set up when the block loop is entered. -/
structure Setup where
  image_offset : Nat
  desc : ciso
  init : LoopState
  deriving DecidableEq, Repr

/-- Source: `compress_iso`, lines 130-153 (everything before the block loop),
for an input file with the contents `data` in the environment `env`;
`lz4_ret` is the value returned by `LZ4F_createCompressionContext`.  None of
the three streams is checked after its construction. -/
def compress_iso_setup (env : Env) (lz4_ret : Nat) (data : List Nat) : Except Nat Setup :=
  if lz4_ret ≠ 0 then Except.error 2
  else
    match detect_iso_type (IfStream.construct env.fin_opens data) with
    | Except.error e => Except.error e
    | Except.ok (image_offset, fin) =>
      let r := ciso.ciso_ifstream fin image_offset
      let c := r.1
      let fout_1 := c.write_header (OfStream.construct env.fout_1_opens)
      let block_index := List.replicate (to_uint32 (c.get_total_blocks + 1)) 0
      let fout_1 := ciso.write_block_index fout_1 block_index
      Except.ok
        { image_offset := image_offset, desc := c,
          init :=
            { fout_1 := fout_1, fout_2 := OfStream.closed, split_second := false, fin := r.2,
              write_pos := to_size_t fout_1.tellp, block_index := block_index,
              raw_data := raw_data_init } }

/-- The result of a run of `compress_iso` that returns. -/
structure Output where
  image_offset : Nat
  desc : ciso
  final : LoopState
  deriving DecidableEq, Repr

/-- Source: `compress_iso` (lines 129-180). -/
def compress_iso (env : Env) (lz4_ret : Nat) (data : List Nat) : Except Nat Output :=
  match compress_iso_setup env lz4_ret data with
  | Except.error e => Except.error e
  | Except.ok s =>
    Except.ok
      { image_offset := s.image_offset, desc := s.desc,
        final := loop_state env s.desc s.init s.desc.get_total_blocks }

/-! ## Reading the container back -/

/-- The value of four bytes read as a little-endian 32-bit word, the way a
reader of the container decodes a header field or an index entry. -/
def decode_le32 (bs : List Nat) : Nat :=
  bs.getD 0 0 + bs.getD 1 0 * 2 ^ 8 + bs.getD 2 0 * 2 ^ 16 + bs.getD 3 0 * 2 ^ 24

/-- The bytes that `write_header` puts into a new file. -/
def header_bytes (c : ciso) : List Nat := (c.write_header OfStream.created).bytes

/-! ## Closed forms for a run of `compress_iso` whose first volume was created

The states that a run goes through when the input file could be opened and
`infile + ".1.cso"` could be created, written out; the theorems below show that
the run of the code above is in these states. -/

/-- The descriptor of a run on a file `data` with origin `o`. -/
def run_desc (data : List Nat) (o : Nat) : ciso :=
  ciso.ciso_uint32 ((data.length - o) % 2 ^ 32)

/-- The size of the header and the placeholder index: the write cursor when
the block loop is entered. -/
def index_end (c : ciso) : Nat := (header_bytes c).length + 4 * (c.total_blocks + 1)

/-- The padding that the first iteration of the block loop writes. -/
def first_pad (c : ciso) : Nat := (4 - index_end c % 4) % 4

/-- The state in which the block loop is entered. -/
def run_init (data : List Nat) (o : Nat) : LoopState :=
  { fout_1 :=
      { is_open := true, failbit := false,
        bytes := header_bytes (run_desc data o) ++
          List.replicate (4 * ((run_desc data o).total_blocks + 1)) 0,
        width := 0, fill := 0 },
    fout_2 := OfStream.closed,
    split_second := false,
    fin := { data := data, pos := data.length, eofbit := false, failbit := false },
    write_pos := index_end (run_desc data o),
    block_index := List.replicate ((run_desc data o).total_blocks + 1) 0,
    raw_data := raw_data_init }

/-- The state of the block loop after `n >= 1` iterations. -/
def run_state (data : List Nat) (o : Nat) (n : Nat) : LoopState :=
  { fout_1 :=
      { is_open := true, failbit := false,
        bytes := header_bytes (run_desc data o) ++
          List.replicate (4 * ((run_desc data o).total_blocks + 1)) 0 ++
          List.replicate (first_pad (run_desc data o)) 0,
        width := 0, fill := 0 },
    fout_2 := OfStream.closed,
    split_second := false,
    fin := { data := data, pos := data.length, eofbit := true, failbit := true },
    write_pos := index_end (run_desc data o) + first_pad (run_desc data o),
    block_index :=
      List.replicate n ((index_end (run_desc data o) + first_pad (run_desc data o)) / 4) ++
        List.replicate ((run_desc data o).total_blocks + 1 - n) 0,
    raw_data := raw_data_init }

/-- The state in which the block loop of a run ends. -/
def run_final (data : List Nat) (o : Nat) : LoopState :=
  if (run_desc data o).total_blocks = 0 then run_init data o
  else run_state data o (run_desc data o).total_blocks

/-- The origin that detection finds in an accepted image. -/
def run_origin (data : List Nat) : Nat :=
  if bytes_at data 0x18310000 = XBOX_MEDIA_MAGIC then 0x18300000 else 0

/-- The result of a run on an accepted image. -/
def run_output (data : List Nat) : Output :=
  { image_offset := run_origin data,
    desc := run_desc data (run_origin data),
    final := run_final data (run_origin data) }

/-- The entry `block_index[i]` as `compress_iso` leaves it in memory. -/
def index_entry (out : Output) (i : Nat) : Nat := out.final.block_index.getD i 0

/-- The length that a reader computes for block `i` from the index:
`(index[i+1] << align) - (index[i] << align)`. -/
def reader_block_length (out : Output) (i : Nat) : Int :=
  ((index_entry out (i + 1) <<< out.desc.get_align : Nat) : Int) -
    ((index_entry out i <<< out.desc.get_align : Nat) : Int)

/-- The contents of `raw_data` after the read of iteration `i` of the block
loop entered with `s`. -/
def raw_data_read (env : Env) (s : Setup) (i : Nat) : List Nat :=
  (loop_body env s.desc (loop_state env s.desc s.init i) i).raw_data

/-- The source bytes of block `i`: the `block_size` bytes of the file from
`image_offset + i * block_size` on. -/
def source_block (data : List Nat) (s : Setup) (i : Nat) : List Nat :=
  (data.drop (s.image_offset + i * s.desc.get_block_size)).take s.desc.get_block_size

/-- The setup of a run on an accepted image. -/
def run_setup (data : List Nat) : Setup :=
  { image_offset := run_origin data,
    desc := run_desc data (run_origin data),
    init := run_init data (run_origin data) }

/-! ## Closed forms for a run whose first volume could not be created -/

/-- The first stream of a run in which `infile + ".1.cso"` could not be
created, as `write_header` and `write_block_index` leave it: nothing is
written. -/
def failed_fout_1 : OfStream :=
  { is_open := false, failbit := true, bytes := [], width := 0, fill := 0 }

/-- The state in which the block loop is entered when the first volume could
not be created: `tellp()` is `-1`, so the cursor is `2^64 - 1`. -/
def failed_init (data : List Nat) (o : Nat) : LoopState :=
  { fout_1 := failed_fout_1,
    fout_2 := OfStream.closed,
    split_second := false,
    fin := { data := data, pos := data.length, eofbit := false, failbit := false },
    write_pos := 2 ^ 64 - 1,
    block_index := List.replicate ((run_desc data o).total_blocks + 1) 0,
    raw_data := raw_data_init }

/-- The state of the block loop after one or more iterations when the first
volume could not be created: the first split check has fired. -/
def failed_state (env : Env) (data : List Nat) (o : Nat) : LoopState :=
  { fout_1 := failed_fout_1,
    fout_2 := OfStream.closed.open_file env.fout_2_opens,
    split_second := true,
    fin := { data := data, pos := data.length, eofbit := true, failbit := true },
    write_pos := 0,
    block_index := List.replicate ((run_desc data o).total_blocks + 1) 0,
    raw_data := raw_data_init }

/-- The state in which the block loop ends when the first volume could not be
created. -/
def failed_final (env : Env) (data : List Nat) (o : Nat) : LoopState :=
  if (run_desc data o).total_blocks = 0 then failed_init data o
  else failed_state env data o

/-- The setup of a run on an accepted image when the first volume could not be
created. -/
def failed_setup (data : List Nat) : Setup :=
  { image_offset := run_origin data,
    desc := run_desc data (run_origin data),
    init := failed_init data (run_origin data) }

/-- The result of a run on an accepted image when the first volume could not
be created. -/
def failed_output (env : Env) (data : List Nat) : Output :=
  { image_offset := run_origin data,
    desc := run_desc data (run_origin data),
    final := failed_final env data (run_origin data) }

/-! ## Concrete environments used as examples -/

/-- The file system grants everything. -/
def ok_env : Env := { fin_opens := true, fout_1_opens := true, fout_2_opens := true }

/-- No output file can be created. -/
def no_output_env : Env := { fin_opens := true, fout_1_opens := false, fout_2_opens := false }

/-! ## Concrete images used as examples -/

/-- A smallest Redump-style image: `0x18310000` bytes of value `fill` followed
by the signature (`0x18310014` bytes in all). -/
def redump_image (fill : Nat) : List Nat :=
  List.replicate 0x18310000 fill ++ XBOX_MEDIA_MAGIC

/-- A smallest raw XDVDFS image: `0x10000` NUL bytes followed by the signature
(`0x10014` bytes in all). -/
def small_xdvdfs_image : List Nat :=
  List.replicate 0x10000 0 ++ XBOX_MEDIA_MAGIC

/-- A Redump-style image whose payload (the bytes from the origin `0x18300000`
on) is `2^32 + 4096` bytes long: the smallest Redump image followed by
`0xFFFF0FEC` NUL bytes. -/
def huge_redump_image : List Nat :=
  List.replicate 0x18310000 0 ++ XBOX_MEDIA_MAGIC ++ List.replicate 0xFFFF0FEC 0

/-- A 4096-byte image that carries the signature at byte offset 0: the
signature followed by 4076 NUL bytes. -/
def tiny_xdvdfs_image : List Nat :=
  XBOX_MEDIA_MAGIC ++ List.replicate 4076 0

/-- An output file of exactly 1024 bytes of value 7, open for writing. -/
def one_kib_file : OfStream :=
  { is_open := true, failbit := false, bytes := List.replicate 1024 7, width := 0, fill := 32 }

/-- A small state of the block loop: the first volume holds 29 bytes and the
cursor stands at 29. -/
def demo_state : LoopState :=
  { fout_1 :=
      { is_open := true, failbit := false, bytes := List.replicate 29 9, width := 0, fill := 0 },
    fout_2 := OfStream.closed,
    split_second := false,
    fin := IfStream.open_file [],
    write_pos := 29,
    block_index := [0, 0, 0],
    raw_data := raw_data_init }

/-- A small state of the block loop whose cursor is above the ceiling and whose
second volume has not been opened. -/
def over_ceiling_state : LoopState :=
  { fout_1 :=
      { is_open := true, failbit := false, bytes := List.replicate 29 9, width := 0, fill := 0 },
    fout_2 := OfStream.closed,
    split_second := false,
    fin := IfStream.open_file [],
    write_pos := 0xFFBF6004,
    block_index := [0, 0, 0],
    raw_data := raw_data_init }

/-- A small state of the block loop that is already on the second volume
(which holds 4 bytes) and whose cursor is above the ceiling. -/
def second_volume_state : LoopState :=
  { fout_1 :=
      { is_open := true, failbit := false, bytes := List.replicate 29 9, width := 0, fill := 0 },
    fout_2 := { is_open := true, failbit := false, bytes := [1, 2, 3, 4], width := 0, fill := 32 },
    split_second := true,
    fin := IfStream.open_file [],
    write_pos := 0xFFBF6004,
    block_index := [0, 0, 0],
    raw_data := raw_data_init }

/-! ## The stream that `split_fout` points to -/

/-- The stream behind `split_fout`. -/
def split_fout (s : LoopState) : OfStream :=
  if s.split_second then s.fout_2 else s.fout_1

/-- The padding that the alignment step (lines 164-166) chooses for a cursor
when the granularity is 4: `4 - (write_pos & 3)` unless the cursor is aligned. -/
def align_pad (write_pos : Nat) : Nat := (4 - write_pos % 4) % 4

/-! ## Facts about the layout detector -/

theorem length_bytes_at (data : List Nat) (p : Nat) :
    (bytes_at data p).length = min 20 (data.length - p) := by
  simp [bytes_at]

theorem zero_not_mem_magic : (0 : Nat) ∉ XBOX_MEDIA_MAGIC := by decide

theorem length_magic : XBOX_MEDIA_MAGIC.length = 20 := by decide

/-- A buffer that still ends in one of its initial NUL characters is not the signature. -/
theorem padded_ne_magic (got : List Nat) (h : got.length < 20) :
    got ++ (List.replicate 20 0).drop got.length ≠ XBOX_MEDIA_MAGIC := by
  intro hEq
  apply zero_not_mem_magic
  rw [← hEq]
  simp only [List.drop_replicate, List.mem_append, List.mem_replicate]
  right
  refine ⟨?_, trivial⟩
  omega

/-- The probe of a good stream positioned at `p`: a full read leaves the stream good. -/
theorem read_full (data : List Nat) (p : Nat) (h : p + 20 ≤ data.length) :
    IfStream.read { data := data, pos := p, eofbit := false, failbit := false }
        (List.replicate 20 0) 20
      = (bytes_at data p, { data := data, pos := p + 20, eofbit := false, failbit := false }) := by
  have hl : (bytes_at data p).length = 20 := by rw [length_bytes_at]; omega
  unfold bytes_at at hl
  simp [IfStream.read, IfStream.good, bytes_at, hl]

/-- The probe of a good stream positioned at `p`: a short read sets `failbit`
and leaves a buffer different from the signature. -/
theorem read_short (data : List Nat) (p : Nat) (h : data.length < p + 20) :
    (IfStream.read { data := data, pos := p, eofbit := false, failbit := false }
        (List.replicate 20 0) 20).2.failbit = true ∧
    (IfStream.read { data := data, pos := p, eofbit := false, failbit := false }
        (List.replicate 20 0) 20).1 ≠ XBOX_MEDIA_MAGIC := by
  have hl : (bytes_at data p).length < 20 := by rw [length_bytes_at]; omega
  unfold bytes_at at hl
  have hne : (List.take 20 (List.drop p data)).length ≠ 20 := by omega
  constructor
  · simp only [IfStream.read, IfStream.good, Bool.not_false, Bool.and_self, if_true]
    rw [if_neg hne]
  · simp only [IfStream.read, IfStream.good, Bool.not_false, Bool.and_self, if_true]
    rw [if_neg hne]
    exact padded_ne_magic _ hl

theorem bytes_at_length_of_eq_magic (data : List Nat) (p : Nat)
    (h : bytes_at data p = XBOX_MEDIA_MAGIC) : p + 20 ≤ data.length := by
  have := length_bytes_at data p
  rw [h, length_magic] at this
  omega

/-- Detection of a Redump image. -/
theorem detect_redump (data : List Nat)
    (h : bytes_at data 0x18310000 = XBOX_MEDIA_MAGIC) :
    detect_iso_type (IfStream.open_file data)
      = Except.ok (0x18300000,
          { data := data, pos := 0x18310014, eofbit := false, failbit := false }) := by
  have hlen := bytes_at_length_of_eq_magic data _ h
  have hr := read_full data 0x18310000 hlen
  simp only [detect_iso_type, IfStream.open_file, IfStream.seekg, IfStream.tellg,
    IfStream.good, Bool.false_eq_true, if_false, Bool.not_false, Bool.and_self, if_true,
    Nat.cast_ofNat, hr, h, and_self]

/-- A file too short for the Redump probe to read 20 bytes is rejected. -/
theorem detect_short (data : List Nat) (h : data.length < 0x18310014) :
    detect_iso_type (IfStream.open_file data) = Except.error 1 := by
  obtain ⟨hf, hne⟩ := read_short data 0x18310000 (by omega)
  simp only [detect_iso_type, IfStream.open_file, IfStream.seekg, IfStream.tellg,
    IfStream.good, Bool.false_eq_true, if_false, Bool.not_false, Bool.and_self, if_true,
    Nat.cast_ofNat, hf, hne, and_false, Bool.not_true, Bool.and_false]
  simp

/-- A file long enough for the Redump probe whose Redump probe does not match
is decided by the raw XDVDFS probe. -/
theorem detect_long_no_redump (data : List Nat) (hlen : 0x18310014 ≤ data.length)
    (h : bytes_at data 0x18310000 ≠ XBOX_MEDIA_MAGIC) :
    detect_iso_type (IfStream.open_file data)
      = if bytes_at data 0x10000 = XBOX_MEDIA_MAGIC then
          Except.ok (0, { data := data, pos := 0x10014, eofbit := false, failbit := false })
        else Except.error 1 := by
  have hr := read_full data 0x18310000 (by omega)
  have hr2 := read_full data 0x10000 (by omega)
  simp only [detect_iso_type, IfStream.open_file, IfStream.seekg, IfStream.tellg,
    IfStream.good, Bool.false_eq_true, if_false, Bool.not_false, Bool.and_self, if_true,
    Nat.cast_ofNat, hr, hr2, h, and_false, true_and]

theorem bytes_at_append_magic (n fill : Nat) :
    bytes_at (List.replicate n fill ++ XBOX_MEDIA_MAGIC) n = XBOX_MEDIA_MAGIC := by
  unfold bytes_at
  rw [List.drop_left' (List.length_replicate n fill)]
  rfl

theorem length_redump_image (fill : Nat) : (redump_image fill).length = 0x18310014 := by
  unfold redump_image
  rw [List.length_append, List.length_replicate, length_magic]

theorem length_small_xdvdfs_image : small_xdvdfs_image.length = 0x10014 := by
  unfold small_xdvdfs_image
  rw [List.length_append, List.length_replicate, length_magic]

theorem origin_le_length_redump_image (fill : Nat) :
    0x18300000 ≤ (redump_image fill).length := by
  have := length_redump_image fill
  omega

theorem bytes_at_redump_image (fill : Nat) :
    bytes_at (redump_image fill) 0x18310000 = XBOX_MEDIA_MAGIC :=
  bytes_at_append_magic 0x18310000 fill

/-! ## Layout detection: the claims -/

/-- C1: when the 20 bytes at the Redump probe position `0x18310000` are the
signature, `detect_iso_type` returns normally with `image_offset = 0x18300000`,
whatever the rest of the file (the bytes at `0x10000` included) holds. -/
theorem C1_detect_redump_origin (data : List Nat)
    (h : bytes_at data 0x18310000 = XBOX_MEDIA_MAGIC) :
    detect_iso_type (IfStream.open_file data)
      = Except.ok (0x18300000,
          { data := data, pos := 0x18310014, eofbit := false, failbit := false }) :=
  detect_redump data h

/-- C1, at a concrete image: the smallest Redump-style image. -/
theorem C1_detect_redump_origin_witness :
    bytes_at (redump_image 0) 0x18310000 = XBOX_MEDIA_MAGIC ∧
    detect_iso_type (IfStream.open_file (redump_image 0))
      = Except.ok (0x18300000,
          { data := redump_image 0, pos := 0x18310014, eofbit := false, failbit := false }) :=
  ⟨bytes_at_redump_image 0, C1_detect_redump_origin (redump_image 0) (bytes_at_redump_image 0)⟩

/-- C2 (the code at the failing input): the raw XDVDFS image of `0x10014` bytes
carries the signature at `0x10000` and is too short for the Redump probe, yet
`detect_iso_type` ends the process with status 1 instead of returning origin 0:
the short read of the first probe leaves `failbit` set, so the second `seekg`
and `tellg` fail. -/
theorem C2_small_xdvdfs_rejected :
    bytes_at small_xdvdfs_image 0x10000 = XBOX_MEDIA_MAGIC ∧
    bytes_at small_xdvdfs_image 0x18310000 ≠ XBOX_MEDIA_MAGIC ∧
    detect_iso_type (IfStream.open_file small_xdvdfs_image) = Except.error 1 := by
  have hlen := length_small_xdvdfs_image
  refine ⟨bytes_at_append_magic 0x10000 0, ?_, detect_short _ (by omega)⟩
  intro h
  have := bytes_at_length_of_eq_magic _ _ h
  omega

/-- C3: when neither probe position holds the signature, and whenever the
file is shorter than `0x10000 + 20` bytes, `detect_iso_type` yields no origin
and ends the process with exit status 1; the outcome is a function of the
file's bytes alone. -/
theorem C3_detect_failure_exits (data : List Nat)
    (h : (bytes_at data 0x18310000 ≠ XBOX_MEDIA_MAGIC ∧
            bytes_at data 0x10000 ≠ XBOX_MEDIA_MAGIC) ∨
          data.length < 0x10000 + 20) :
    detect_iso_type (IfStream.open_file data) = Except.error 1 := by
  by_cases hlen : data.length < 0x18310014
  · exact detect_short data hlen
  · rcases h with ⟨h1, h2⟩ | h
    · rw [detect_long_no_redump data (by omega) h1, if_neg h2]
    · omega

/-- C3, at concrete files: a file of 40 bytes that holds no signature. -/
theorem C3_detect_failure_exits_witness :
    ((bytes_at (List.replicate 40 7) 0x18310000 ≠ XBOX_MEDIA_MAGIC ∧
        bytes_at (List.replicate 40 7) 0x10000 ≠ XBOX_MEDIA_MAGIC) ∨
      (List.replicate 40 7).length < 0x10000 + 20) ∧
    detect_iso_type (IfStream.open_file (List.replicate 40 7)) = Except.error 1 :=
  ⟨Or.inr (by decide), C3_detect_failure_exits (List.replicate 40 7) (Or.inr (by decide))⟩

/-! ## The descriptor -/

/-- Converting to `int32_t` and on to `size_t` keeps the value modulo `2^32`. -/
theorem to_size_t_to_int32_mod (L : Nat) :
    to_size_t (to_int32 (L : Int)) % 2 ^ 32 = L % 2 ^ 32 := by
  unfold to_size_t to_int32
  omega

/-- A `size_t` difference stored in a `uint32_t` is the difference modulo `2^32`. -/
theorem to_uint32_to_size_t_sub (a o : Nat) :
    to_uint32 (to_size_t ((a : Int) - (o : Int)))
      = (((a : Int) - (o : Int)) % 2 ^ 32).toNat := by
  unfold to_uint32 to_size_t
  omega

/-- The chain of conversions in `(int32_t)f.tellg() - image_offset`, stored in
a `uint32_t`, computes the difference modulo `2^32`. -/
theorem file_size_arith (L o : Nat) (h : o ≤ L) :
    to_uint32 (to_size_t ((to_size_t (to_int32 (L : Int)) : Int) - (o : Int)))
      = (L - o) % 2 ^ 32 := by
  rw [to_uint32_to_size_t_sub]
  have ha := to_size_t_to_int32_mod L
  generalize to_size_t (to_int32 (L : Int)) = a at ha ⊢
  omega

/-- The constructor from a stream that has not failed: it measures the whole
file and leaves the read position at the end of the file. -/
theorem ciso_ifstream_eq (f : IfStream) (o : Nat) (hf : f.failbit = false) :
    ciso.ciso_ifstream f o
      = (ciso.ciso_uint32
            (to_uint32 (to_size_t ((to_size_t (to_int32 (f.data.length : Int)) : Int) - (o : Int)))),
          { data := f.data, pos := f.data.length, eofbit := false, failbit := false }) := by
  simp only [ciso.ciso_ifstream, IfStream.seekg_end, IfStream.tellg, IfStream.good, hf,
    Bool.false_eq_true, if_false, Bool.not_false, Bool.and_self, if_true]

theorem length_huge_redump_image : huge_redump_image.length = 0x118301000 := by
  unfold huge_redump_image
  rw [List.length_append, List.length_append, List.length_replicate, List.length_replicate,
    length_magic]

theorem bytes_at_huge_redump_image :
    bytes_at huge_redump_image 0x18310000 = XBOX_MEDIA_MAGIC := by
  unfold bytes_at huge_redump_image
  rw [List.append_assoc, List.drop_left' (List.length_replicate _ _),
    List.take_left' length_magic]

/-- C4 as stated fails: for the Redump image whose payload is `2^32 + 4096`
bytes long the detected origin is `0x18300000 <= L`, but the descriptor holds
`total_bytes = 4096` and `total_blocks = 2`, not `L - o = 2^32 + 4096` and
`floor((L - o) / 2048) = 2^21 + 2`. -/
theorem C4_counterexample :
    detect_iso_type (IfStream.open_file huge_redump_image)
      = Except.ok (0x18300000,
          { data := huge_redump_image, pos := 0x18310014, eofbit := false, failbit := false }) ∧
    0x18300000 ≤ huge_redump_image.length ∧
    huge_redump_image.length - 0x18300000 = 4294971392 ∧
    (ciso.ciso_ifstream
      { data := huge_redump_image, pos := 0x18310014, eofbit := false, failbit := false }
      0x18300000).1.total_bytes = 4096 ∧
    (ciso.ciso_ifstream
      { data := huge_redump_image, pos := 0x18310014, eofbit := false, failbit := false }
      0x18300000).1.total_blocks = 2 ∧
    ¬ ((ciso.ciso_ifstream
      { data := huge_redump_image, pos := 0x18310014, eofbit := false, failbit := false }
      0x18300000).1.total_bytes = huge_redump_image.length - 0x18300000 ∧
       (ciso.ciso_ifstream
      { data := huge_redump_image, pos := 0x18310014, eofbit := false, failbit := false }
      0x18300000).1.total_blocks = (huge_redump_image.length - 0x18300000) / 2048) := by
  have hlen := length_huge_redump_image
  have hd := ciso_ifstream_eq
    { data := huge_redump_image, pos := 0x18310014, eofbit := false, failbit := false }
    0x18300000 rfl
  have ha := file_size_arith huge_redump_image.length 0x18300000 (by omega)
  simp only [] at hd
  rw [ha, hlen] at hd
  rw [hd, hlen]
  refine ⟨detect_redump _ bytes_at_huge_redump_image, by decide, by decide, ?_, ?_, ?_⟩
  · decide
  · decide
  · decide

/-- C4 (amended): for a stream that has not failed, over a file of `L` bytes,
and an origin `o <= L`, the descriptor built by `ciso(std::ifstream&)` has
`total_bytes = (L - o) mod 2^32` and `total_blocks = floor(total_bytes / 2048)`;
when `L - o < 2^32` this is `total_bytes = L - o` and
`total_blocks = floor((L - o) / 2048)`, the remainder of fewer than 2048 bytes
being left out of `total_blocks`. -/
theorem C4_descriptor_size (data : List Nat) (pos : Nat) (eof : Bool) (o : Nat)
    (ho : o ≤ data.length) :
    (ciso.ciso_ifstream { data := data, pos := pos, eofbit := eof, failbit := false }
        o).1.total_bytes = (data.length - o) % 2 ^ 32 ∧
    (ciso.ciso_ifstream { data := data, pos := pos, eofbit := eof, failbit := false }
        o).1.total_blocks = (data.length - o) % 2 ^ 32 / 2048 ∧
    (data.length - o < 2 ^ 32 →
      (ciso.ciso_ifstream { data := data, pos := pos, eofbit := eof, failbit := false }
          o).1.total_bytes = data.length - o ∧
      (ciso.ciso_ifstream { data := data, pos := pos, eofbit := eof, failbit := false }
          o).1.total_blocks = (data.length - o) / 2048 ∧
      (ciso.ciso_ifstream { data := data, pos := pos, eofbit := eof, failbit := false }
          o).1.total_blocks * 2048 ≤ data.length - o ∧
      data.length - o <
        ((ciso.ciso_ifstream { data := data, pos := pos, eofbit := eof, failbit := false }
          o).1.total_blocks + 1) * 2048) := by
  have hd := ciso_ifstream_eq
    { data := data, pos := pos, eofbit := eof, failbit := false } o rfl
  simp only [] at hd
  rw [file_size_arith _ _ ho] at hd
  rw [hd]
  simp only [ciso.ciso_uint32, CISO_BLOCK_SIZE]
  refine ⟨trivial, trivial, ?_⟩
  intro hlt
  rw [Nat.mod_eq_of_lt hlt]
  refine ⟨?_, ?_, ?_, ?_⟩ <;> first | rfl | trivial | omega

/-- C4 (amended), at a concrete stream: the smallest Redump image as
`detect_iso_type` leaves it, with origin `0x18300000`. -/
theorem C4_descriptor_size_witness :
    (0x18300000 ≤ (redump_image 0).length) ∧
    (ciso.ciso_ifstream
        { data := redump_image 0, pos := 0x18310014, eofbit := false, failbit := false }
        0x18300000).1.total_bytes = ((redump_image 0).length - 0x18300000) % 2 ^ 32 :=
  ⟨origin_le_length_redump_image 0,
   (C4_descriptor_size (redump_image 0) 0x18310014 false 0x18300000
      (origin_le_length_redump_image 0)).1⟩

/-! ## The header and the index entries -/

/-- C5 (the code at the failing input): for the descriptor `ciso(4096)`
`write_header` emits 16 bytes, not 24: after `"CISO"` the header-size field is
the two bytes `00 18`, the total-size field is four NUL bytes (the C string at
`&total_bytes` is empty, so 4096 cannot be read back), the block-size field is
two NUL bytes, then version, alignment shift and two NUL bytes. -/
theorem C5_header_bytes_4096 :
    header_bytes (ciso.ciso_uint32 4096)
      = [0x43, 0x49, 0x53, 0x4F, 0, 0x18, 0, 0, 0, 0, 0, 0, 2, 2, 0, 0] ∧
    (header_bytes (ciso.ciso_uint32 4096)).length = 16 ∧
    decode_le32 (((header_bytes (ciso.ciso_uint32 4096)).drop 8).take 4) ≠ 4096 := by
  decide

/-- C6 (the code at the failing input): the entry `0x80000000` (the
stored-uncompressed flag alone) is written as four NUL bytes, the same bytes as
the entry 0, and decodes to 0: the flag bit is lost, because the characters
are taken at shifts 0, 4, 8 and 12 instead of 0, 8, 16 and 24. -/
theorem C6_entry_bytes_flag_lost :
    ciso.entry_bytes 0x80000000 = [0, 0, 0, 0] ∧
    ciso.entry_bytes 0x80000000 = ciso.entry_bytes 0 ∧
    decode_le32 (ciso.entry_bytes 0x80000000) ≠ 0x80000000 ∧
    (ciso.write_block_index OfStream.created [0x80000000]).bytes = [0, 0, 0, 0] := by
  decide

/-! ## Steps of the block loop -/

theorem land_three (w : Nat) : w &&& 3 = w % 4 :=
  Nat.and_pow_two_sub_one_eq_mod w 2

theorem shiftRight_two (w : Nat) : w >>> 2 = w / 4 :=
  Nat.shiftRight_eq_div_pow w 2

theorem align_b_eq (c : ciso) (hc : c.align = 2) : align_b c = 4 := by
  unfold align_b ciso.get_align to_uint32
  rw [hc]
  decide

theorem align_m_eq (c : ciso) (hc : c.align = 2) : align_m c = 3 := by
  unfold align_m
  rw [align_b_eq c hc]
  decide

/-- The split check leaves a state below the ceiling alone. -/
theorem split_check_of_le (env : Env) (s : LoopState) (h : s.write_pos ≤ FATX_SIZE_LIMIT) :
    split_check env s = s := by
  unfold split_check
  rw [if_neg (by omega)]

/-- The alignment step leaves an aligned cursor alone. -/
theorem write_alignment_aligned (c : ciso) (hc : c.align = 2) (s : LoopState)
    (h : s.write_pos % 4 = 0) : write_alignment c s = s := by
  unfold write_alignment
  simp only [align_m_eq c hc, land_three, to_uint32, h, Nat.zero_mod, ne_eq,
    not_true_eq_false, if_false]

theorem take_alignment_buffer (n : Nat) (h : n ≤ 65) :
    alignment_buffer.take n = List.replicate n 0 := by
  have : alignment_buffer = List.replicate 65 0 := by decide
  rw [this, List.take_replicate, Nat.min_eq_left h]

/-- The alignment step on the first volume: it appends the padding to
`fout_1` and advances the cursor to the next multiple of 4. -/
theorem write_alignment_first (c : ciso) (hc : c.align = 2) (s : LoopState)
    (hsplit : s.split_second = false) (hopen : s.fout_1.is_open = true)
    (hfail : s.fout_1.failbit = false) (hw : s.write_pos < 2 ^ 32) :
    write_alignment c s
      = { s with
          fout_1 :=
            { s.fout_1 with
              bytes := s.fout_1.bytes ++ List.replicate ((4 - s.write_pos % 4) % 4) 0 }
          write_pos := s.write_pos + (4 - s.write_pos % 4) % 4 } := by
  by_cases h : s.write_pos % 4 = 0
  · rw [write_alignment_aligned c hc s h, h]
    simp
  · have hlt : s.write_pos % 4 < 4 := Nat.mod_lt _ (by decide)
    have h1 : to_uint32 (s.write_pos % 4) = s.write_pos % 4 := by
      unfold to_uint32; omega
    have h2 : to_uint32 (4 + 2 ^ 32 - s.write_pos % 4) = 4 - s.write_pos % 4 := by
      unfold to_uint32; omega
    have h3 : (4 - s.write_pos % 4) % 4 = 4 - s.write_pos % 4 := by omega
    have h4 : (s.write_pos + (4 - s.write_pos % 4)) % 2 ^ 64 = s.write_pos + (4 - s.write_pos % 4) := by
      omega
    unfold write_alignment
    simp only [align_m_eq c hc, align_b_eq c hc, land_three, h1, h2, h3, ne_eq, h,
      not_false_eq_true, if_true, split_write, hsplit, Bool.false_eq_true, if_false,
      OfStream.write, OfStream.good, hopen, hfail, Bool.not_false, Bool.and_self, h4,
      take_alignment_buffer _ (show 4 - s.write_pos % 4 ≤ 65 by omega)]

/-- Reading from a good stream positioned at (or beyond) the end of the file:
nothing is read and the stream fails. -/
theorem read_at_end (data : List Nat) (p : Nat) (hp : data.length ≤ p) (buf : List Nat)
    (n : Nat) (hn : n ≠ 0) :
    IfStream.read { data := data, pos := p, eofbit := false, failbit := false } buf n
      = (buf, { data := data, pos := p, eofbit := true, failbit := true }) := by
  have hd : List.drop p data = [] := List.drop_eq_nil_of_le hp
  have hn0 : ¬ (0 = n) := fun h => hn h.symm
  simp [IfStream.read, IfStream.good, hd, hn0]

/-- Reading from a stream that has failed: nothing happens. -/
theorem read_failed (data : List Nat) (p : Nat) (buf : List Nat) (n : Nat) :
    IfStream.read { data := data, pos := p, eofbit := true, failbit := true } buf n
      = (buf, { data := data, pos := p, eofbit := true, failbit := true }) := by
  simp [IfStream.read, IfStream.good]

/-! ## The header and the placeholder index of a run -/

theorem length_c_str_le (mem : List Nat) : (c_str mem).length ≤ mem.length := by
  unfold c_str
  exact List.Sublist.length_le (List.takeWhile_sublist _)

theorem c_str_header_size : c_str (le32 CISO_HEADER_SIZE) = [0x18] := by decide

theorem le32_two : le32 2 = [2, 0, 0, 0] := by decide

theorem le32_block_size : le32 2048 = [0, 8, 0, 0] := by decide

theorem object_bytes_eq (t : Nat) :
    (ciso.ciso_uint32 t).object_bytes
      = 2 :: 0 :: 0 :: 0 :: 0 :: 8 :: 0 :: 0 ::
          (le32 t ++ (le32 (t / 0x800) ++ [2, 0, 0, 0])) := by
  simp only [ciso.object_bytes, ciso.ciso_uint32, le32_two, le32_block_size, CISO_BLOCK_SIZE,
    List.cons_append, List.nil_append, List.append_assoc]

theorem c_str_zero_cons (l : List Nat) : c_str (0 :: l) = [] := by
  simp [c_str]

theorem c_str_two_zero_cons (l : List Nat) : c_str (2 :: 0 :: l) = [2] := by
  simp [c_str]

theorem c_str_at_total_bytes (t : Nat) :
    c_str ((ciso.ciso_uint32 t).object_bytes.drop 8)
      = c_str (le32 t ++ le32 (t / 0x800) ++ le32 2) := by
  rw [object_bytes_eq, le32_two, List.append_assoc]
  rfl

theorem c_str_at_block_size (t : Nat) :
    c_str ((ciso.ciso_uint32 t).object_bytes.drop 4) = [] := by
  rw [object_bytes_eq]
  exact c_str_zero_cons _

theorem c_str_at_ver (t : Nat) : c_str (ciso.ciso_uint32 t).object_bytes = [2] := by
  rw [object_bytes_eq]
  exact c_str_two_zero_cons _

theorem c_str_at_align (t : Nat) :
    c_str ((ciso.ciso_uint32 t).object_bytes.drop 16) = [2] := by
  rw [object_bytes_eq]
  exact c_str_two_zero_cons _

theorem write_header_eq (t : Nat) :
    (ciso.ciso_uint32 t).write_header OfStream.created
      = { is_open := true, failbit := false, bytes := header_bytes (ciso.ciso_uint32 t),
          width := 0, fill := 0 } := by
  simp [header_bytes, ciso.write_header, ciso.ciso_uint32, OfStream.insert, OfStream.good,
    OfStream.created, OfStream.set_width, OfStream.set_fill]

/-- The header written for a descriptor built by `ciso(uint32_t)`. -/
theorem header_bytes_eq (t : Nat) :
    header_bytes (ciso.ciso_uint32 t)
      = [0x43, 0x49, 0x53, 0x4F, 0, 0x18] ++
          (List.replicate (4 - (c_str (le32 t ++ le32 (t / 0x800) ++ le32 2)).length) 0 ++
            c_str (le32 t ++ le32 (t / 0x800) ++ le32 2)) ++
          [0, 0, 2, 2, 0, 0] := by
  unfold header_bytes ciso.write_header
  simp only [c_str_header_size, c_str_at_total_bytes, c_str_at_block_size, c_str_at_ver,
    c_str_at_align, OfStream.insert, OfStream.good, OfStream.created, OfStream.set_width,
    OfStream.set_fill, Bool.not_false, Bool.and_self, if_true]
  simp only [ciso.ciso_uint32, CISO_MAGIC, List.length_cons, List.length_nil]
  simp

theorem length_header_bytes (t : Nat) :
    16 ≤ (header_bytes (ciso.ciso_uint32 t)).length ∧
    (header_bytes (ciso.ciso_uint32 t)).length ≤ 24 := by
  have h := length_c_str_le (le32 t ++ le32 (t / 0x800) ++ le32 2)
  have hl : (le32 t ++ le32 (t / 0x800) ++ le32 2).length = 12 := by simp [le32]
  rw [hl] at h
  rw [header_bytes_eq]
  simp only [List.length_append, List.length_replicate, List.length_cons, List.length_nil]
  omega

theorem replicate_four_mul_succ (n : Nat) :
    List.replicate (4 * (n + 1)) (0 : Nat) = [0, 0, 0, 0] ++ List.replicate (4 * n) 0 := by
  have : 4 * (n + 1) = 4 * n + 1 + 1 + 1 + 1 := by omega
  rw [this]
  simp [List.replicate_succ]

/-- Writing an index of `n` zero entries appends `4 * n` NUL bytes. -/
theorem write_block_index_zeros (n : Nat) (f : OfStream) (hopen : f.is_open = true)
    (hfail : f.failbit = false) :
    ciso.write_block_index f (List.replicate n 0)
      = { f with bytes := f.bytes ++ List.replicate (4 * n) 0 } := by
  induction n generalizing f with
  | zero => simp [ciso.write_block_index]
  | succ n ih =>
    have hstep :
        (((f.write [ciso.char_a 0]).write [ciso.char_b 0]).write [ciso.char_c 0]).write
            [ciso.char_d 0]
          = { f with bytes := f.bytes ++ [0, 0, 0, 0] } := by
      have ha : ciso.char_a 0 = 0 := by decide
      have hb : ciso.char_b 0 = 0 := by decide
      have hc : ciso.char_c 0 = 0 := by decide
      have hd : ciso.char_d 0 = 0 := by decide
      simp [OfStream.write, OfStream.good, hopen, hfail, ha, hb, hc, hd]
    have ih2 := ih { f with bytes := f.bytes ++ [0, 0, 0, 0] } hopen hfail
    unfold ciso.write_block_index at ih2 ⊢
    rw [List.replicate_succ, List.foldl_cons, hstep, ih2, replicate_four_mul_succ]
    simp

/-! ## A run of `compress_iso` on an accepted image -/

theorem total_blocks_run_desc_lt (data : List Nat) (o : Nat) :
    (run_desc data o).total_blocks < 2 ^ 21 := by
  simp only [run_desc, ciso.ciso_uint32, CISO_BLOCK_SIZE]
  omega

theorem align_run_desc (data : List Nat) (o : Nat) : (run_desc data o).align = 2 := rfl

theorem block_size_run_desc (data : List Nat) (o : Nat) :
    (run_desc data o).get_block_size = 0x800 := rfl

theorem index_end_bounds (data : List Nat) (o : Nat) :
    20 ≤ index_end (run_desc data o) ∧ index_end (run_desc data o) ≤ 24 + 4 * 2 ^ 21 := by
  have h1 := total_blocks_run_desc_lt data o
  have h2 := length_header_bytes ((data.length - o) % 2 ^ 32)
  unfold index_end
  unfold run_desc at h1 ⊢
  omega

theorem construct_created : OfStream.construct true = OfStream.created := rfl

theorem construct_failed :
    OfStream.construct false
      = { is_open := false, failbit := true, bytes := [], width := 0, fill := 32 } := rfl

/-- What `compress_iso` has set up when the first volume has been created and
detection has returned the origin `o`. -/
theorem compress_iso_setup_eq (env : Env) (data : List Nat) (o p : Nat)
    (ho : o ≤ data.length) (h1 : env.fout_1_opens = true)
    (hdet : detect_iso_type (IfStream.construct env.fin_opens data)
      = Except.ok (o, { data := data, pos := p, eofbit := false, failbit := false })) :
    compress_iso_setup env 0 data
      = Except.ok { image_offset := o, desc := run_desc data o, init := run_init data o } := by
  have hd := ciso_ifstream_eq
    { data := data, pos := p, eofbit := false, failbit := false } o rfl
  simp only [] at hd
  rw [file_size_arith _ _ ho] at hd
  have htb := total_blocks_run_desc_lt data o
  have hu : to_uint32 ((run_desc data o).total_blocks + 1) = (run_desc data o).total_blocks + 1 := by
    unfold to_uint32; omega
  have hw := write_block_index_zeros ((run_desc data o).total_blocks + 1)
    { is_open := true, failbit := false, bytes := header_bytes (run_desc data o),
      width := 0, fill := 0 } rfl rfl
  simp only [] at hw
  unfold compress_iso_setup
  simp only [ne_eq, not_true_eq_false, if_false, hdet, hd, h1, construct_created]
  have hh : (ciso.ciso_uint32 ((data.length - o) % 2 ^ 32)).write_header OfStream.created
      = { is_open := true, failbit := false, bytes := header_bytes (run_desc data o),
          width := 0, fill := 0 } := write_header_eq _
  have hrd : ciso.ciso_uint32 ((data.length - o) % 2 ^ 32) = run_desc data o := rfl
  rw [hh, hrd]
  simp only [ciso.get_total_blocks, hu, hw]
  simp only [run_init, index_end, OfStream.tellp, Bool.false_eq_true, if_false, to_size_t,
    List.length_append, List.length_replicate]
  have hlen := (length_header_bytes ((data.length - o) % 2 ^ 32)).2
  rw [hrd] at hlen
  have hpos : ((((header_bytes (run_desc data o)).length +
      4 * ((run_desc data o).total_blocks + 1) : Nat) : Int) % 2 ^ 64).toNat
      = (header_bytes (run_desc data o)).length + 4 * ((run_desc data o).total_blocks + 1) := by
    omega
  rw [hpos]

/-- Nothing reaches a stream that is not good: `write_header` only changes
its formatting state. -/
theorem write_header_failed (c : ciso) :
    c.write_header (OfStream.construct false) = failed_fout_1 := by
  simp [ciso.write_header, construct_failed, OfStream.insert, OfStream.good,
    OfStream.set_width, OfStream.set_fill, failed_fout_1]

/-- Nothing reaches a stream that is not good: `write_block_index` leaves it as it is. -/
theorem write_block_index_failed (l : List Nat) :
    ciso.write_block_index failed_fout_1 l = failed_fout_1 := by
  unfold ciso.write_block_index
  induction l with
  | nil => rfl
  | cons a l ih =>
    rw [List.foldl_cons]
    have hstep :
        (((failed_fout_1.write [ciso.char_a a]).write [ciso.char_b a]).write
            [ciso.char_c a]).write [ciso.char_d a] = failed_fout_1 := by
      simp [OfStream.write, OfStream.good, failed_fout_1]
    rw [hstep]
    exact ih

theorem write_pos_failed : to_size_t failed_fout_1.tellp = 2 ^ 64 - 1 := by
  have h : failed_fout_1.tellp = -1 := rfl
  rw [h]
  unfold to_size_t
  omega

/-- What `compress_iso` has set up when the first volume could not be created
and detection has returned the origin `o`. -/
theorem compress_iso_setup_failed (env : Env) (data : List Nat) (o p : Nat)
    (ho : o ≤ data.length) (h1 : env.fout_1_opens = false)
    (hdet : detect_iso_type (IfStream.construct env.fin_opens data)
      = Except.ok (o, { data := data, pos := p, eofbit := false, failbit := false })) :
    compress_iso_setup env 0 data
      = Except.ok
          { image_offset := o, desc := run_desc data o, init := failed_init data o } := by
  have hd := ciso_ifstream_eq
    { data := data, pos := p, eofbit := false, failbit := false } o rfl
  simp only [] at hd
  rw [file_size_arith _ _ ho] at hd
  have htb := total_blocks_run_desc_lt data o
  have hu : to_uint32 ((run_desc data o).total_blocks + 1) = (run_desc data o).total_blocks + 1 := by
    unfold to_uint32; omega
  have hrd : ciso.ciso_uint32 ((data.length - o) % 2 ^ 32) = run_desc data o := rfl
  unfold compress_iso_setup
  simp only [ne_eq, not_true_eq_false, if_false, hdet, hd, h1, hrd, write_header_failed,
    write_block_index_failed, write_pos_failed, ciso.get_total_blocks, hu]
  rfl

theorem set_replicate_append (n m v : Nat) (h : n < m) :
    (List.replicate n v ++ List.replicate (m - n) 0).set n v
      = List.replicate (n + 1) v ++ List.replicate (m - (n + 1)) 0 := by
  have hm : m - n = (m - (n + 1)) + 1 := by omega
  rw [hm, List.replicate_succ (n := m - (n + 1)), List.set_append_right _ _ (by simp)]
  simp [List.replicate_succ', List.append_assoc]

theorem aligned_run_cursor (data : List Nat) (o : Nat) :
    (index_end (run_desc data o) + first_pad (run_desc data o)) % 4 = 0 ∧
    index_end (run_desc data o) + first_pad (run_desc data o) < 2 ^ 32 ∧
    index_end (run_desc data o) + first_pad (run_desc data o) ≤ FATX_SIZE_LIMIT := by
  have h := index_end_bounds data o
  unfold first_pad FATX_SIZE_LIMIT
  omega

/-- The first iteration of the block loop of a run. -/
theorem loop_body_run_init (env : Env) (data : List Nat) (o : Nat) :
    loop_body env (run_desc data o) (run_init data o) 0 = run_state data o 1 := by
  have hb := index_end_bounds data o
  have ha := aligned_run_cursor data o
  have hle : (run_init data o).write_pos ≤ FATX_SIZE_LIMIT := by
    show index_end (run_desc data o) ≤ FATX_SIZE_LIMIT
    unfold FATX_SIZE_LIMIT; omega
  have hlt : (run_init data o).write_pos < 2 ^ 32 := by
    show index_end (run_desc data o) < 2 ^ 32
    omega
  have hu : to_uint32 ((index_end (run_desc data o) + first_pad (run_desc data o)) / 4)
      = (index_end (run_desc data o) + first_pad (run_desc data o)) / 4 := by
    unfold to_uint32; omega
  unfold loop_body
  rw [split_check_of_le env _ hle,
    write_alignment_first _ (align_run_desc data o) _ rfl rfl rfl hlt]
  simp only [mark_offset, read_raw, run_init, run_state, ciso.get_align, align_run_desc,
    shiftRight_two, block_size_run_desc, read_at_end data data.length (Nat.le_refl _) _ 0x800
      (by decide)]
  have hset := set_replicate_append 0 ((run_desc data o).total_blocks + 1)
    ((index_end (run_desc data o) + first_pad (run_desc data o)) / 4) (by omega)
  simp only [List.replicate_zero, List.nil_append, Nat.sub_zero, Nat.zero_add] at hset
  simp only [first_pad] at hu hset ⊢
  rw [hu, hset]

/-- Every later iteration of the block loop of a run. -/
theorem loop_body_run_state (env : Env) (data : List Nat) (o n : Nat)
    (hn : n < (run_desc data o).total_blocks + 1) :
    loop_body env (run_desc data o) (run_state data o n) n = run_state data o (n + 1) := by
  have ha := aligned_run_cursor data o
  have hu : to_uint32 ((index_end (run_desc data o) + first_pad (run_desc data o)) / 4)
      = (index_end (run_desc data o) + first_pad (run_desc data o)) / 4 := by
    unfold to_uint32; omega
  unfold loop_body
  rw [split_check_of_le env _ ha.2.2,
    write_alignment_aligned _ (align_run_desc data o) _ ha.1]
  simp only [mark_offset, read_raw, run_state, ciso.get_align, align_run_desc,
    shiftRight_two, block_size_run_desc, read_failed, hu,
    set_replicate_append n _ _ hn]

/-- The state of a run after `n >= 1` iterations. -/
theorem loop_state_run (env : Env) (data : List Nat) (o n : Nat)
    (hn : n < (run_desc data o).total_blocks + 1) :
    loop_state env (run_desc data o) (run_init data o) (n + 1) = run_state data o (n + 1) := by
  induction n with
  | zero =>
    simp only [loop_state, List.range_succ, List.range_zero, List.nil_append, List.foldl_cons,
      List.foldl_nil, Nat.zero_add]
    exact loop_body_run_init env data o
  | succ k ih =>
    have ih2 := ih (by omega)
    unfold loop_state at ih2 ⊢
    rw [List.range_succ, List.foldl_append, ih2]
    simp only [List.foldl_cons, List.foldl_nil]
    exact loop_body_run_state env data o (k + 1) hn

/-- The state in which the block loop of a run ends. -/
theorem loop_state_run_final (env : Env) (data : List Nat) (o : Nat) :
    loop_state env (run_desc data o) (run_init data o) (run_desc data o).total_blocks
      = run_final data o := by
  unfold run_final
  by_cases h : (run_desc data o).total_blocks = 0
  · rw [if_pos h, h]
    rfl
  · rw [if_neg h]
    obtain ⟨k, hk⟩ := Nat.exists_eq_succ_of_ne_zero h
    rw [hk]
    exact loop_state_run env data o k (by omega)

theorem set_replicate_self (n i a : Nat) :
    (List.replicate n a).set i a = List.replicate n a := by
  induction n generalizing i with
  | zero => rfl
  | succ n ih =>
    cases i with
    | zero => rfl
    | succ j =>
      rw [List.replicate_succ, List.set_cons_succ, ih]

/-- The first iteration of the block loop when the first volume could not be
created: the cursor `2^64 - 1` is above the ceiling, so the split check
fires, calls `fout_2.open`, points `split_fout` to `fout_2` and resets the
cursor to 0; block 0 is recorded at cursor 0. -/
theorem loop_body_failed_init (env : Env) (data : List Nat) (o : Nat) :
    loop_body env (run_desc data o) (failed_init data o) 0 = failed_state env data o := by
  have hgt : (failed_init data o).write_pos > FATX_SIZE_LIMIT := by
    show 2 ^ 64 - 1 > FATX_SIZE_LIMIT
    unfold FATX_SIZE_LIMIT
    omega
  have hz : to_uint32 (0 / 4) = 0 := by decide
  unfold loop_body split_check
  rw [if_pos hgt, write_alignment_aligned _ (align_run_desc data o)
    { failed_init data o with
      fout_2 := (failed_init data o).fout_2.open_file env.fout_2_opens
      split_second := true
      write_pos := 0 } rfl]
  simp only [mark_offset, read_raw, failed_init, failed_state, ciso.get_align, align_run_desc,
    shiftRight_two, block_size_run_desc, hz, set_replicate_self,
    read_at_end data data.length (Nat.le_refl _) _ 0x800 (by decide)]

/-- Every later iteration when the first volume could not be created: the
state does not change any more, every block is recorded at cursor 0. -/
theorem loop_body_failed_state (env : Env) (data : List Nat) (o n : Nat) :
    loop_body env (run_desc data o) (failed_state env data o) n = failed_state env data o := by
  have hle : (failed_state env data o).write_pos ≤ FATX_SIZE_LIMIT := Nat.zero_le _
  have hz : to_uint32 (0 / 4) = 0 := by decide
  unfold loop_body
  rw [split_check_of_le env _ hle,
    write_alignment_aligned _ (align_run_desc data o) (failed_state env data o) rfl]
  simp only [mark_offset, read_raw, failed_state, ciso.get_align, align_run_desc,
    shiftRight_two, block_size_run_desc, hz, set_replicate_self, read_failed]

/-- The state after `n >= 1` iterations when the first volume could not be created. -/
theorem loop_state_failed (env : Env) (data : List Nat) (o n : Nat) :
    loop_state env (run_desc data o) (failed_init data o) (n + 1) = failed_state env data o := by
  induction n with
  | zero =>
    simp only [loop_state, List.range_succ, List.range_zero, List.nil_append, List.foldl_cons,
      List.foldl_nil, Nat.zero_add]
    exact loop_body_failed_init env data o
  | succ k ih =>
    unfold loop_state at ih ⊢
    rw [List.range_succ, List.foldl_append, ih]
    simp only [List.foldl_cons, List.foldl_nil]
    exact loop_body_failed_state env data o (k + 1)

/-- The state in which the block loop ends when the first volume could not be created. -/
theorem loop_state_failed_final (env : Env) (data : List Nat) (o : Nat) :
    loop_state env (run_desc data o) (failed_init data o) (run_desc data o).total_blocks
      = failed_final env data o := by
  unfold failed_final
  by_cases h : (run_desc data o).total_blocks = 0
  · rw [if_pos h, h]
    rfl
  · rw [if_neg h]
    obtain ⟨k, hk⟩ := Nat.exists_eq_succ_of_ne_zero h
    rw [hk]
    exact loop_state_failed env data o k

/-- A stream whose file could not be opened is rejected by detection. -/
theorem detect_not_opened : detect_iso_type IfStream.not_opened = Except.error 1 := by
  simp [detect_iso_type, IfStream.not_opened, IfStream.seekg, IfStream.tellg, IfStream.good]

/-- The two ways in which detection succeeds on a freshly opened file. -/
theorem detect_ok_cases (data : List Nat) (r : Nat × IfStream)
    (h : detect_iso_type (IfStream.open_file data) = Except.ok r) :
    (bytes_at data 0x18310000 = XBOX_MEDIA_MAGIC ∧
      r = (0x18300000,
        { data := data, pos := 0x18310014, eofbit := false, failbit := false })) ∨
    (bytes_at data 0x18310000 ≠ XBOX_MEDIA_MAGIC ∧ 0x18310014 ≤ data.length ∧
      bytes_at data 0x10000 = XBOX_MEDIA_MAGIC ∧
      r = (0, { data := data, pos := 0x10014, eofbit := false, failbit := false })) := by
  by_cases h1 : bytes_at data 0x18310000 = XBOX_MEDIA_MAGIC
  · left
    rw [detect_redump data h1] at h
    exact ⟨h1, (Except.ok.inj h).symm⟩
  · right
    by_cases hlen : data.length < 0x18310014
    · rw [detect_short data hlen] at h
      cases h
    · rw [detect_long_no_redump data (by omega) h1] at h
      by_cases h2 : bytes_at data 0x10000 = XBOX_MEDIA_MAGIC
      · rw [if_pos h2] at h
        exact ⟨h1, by omega, h2, (Except.ok.inj h).symm⟩
      · rw [if_neg h2] at h
        cases h

/-- Every image accepted by detection is at least `0x18310014` bytes long. -/
theorem length_of_detect_ok (data : List Nat) (r : Nat × IfStream)
    (h : detect_iso_type (IfStream.open_file data) = Except.ok r) :
    0x18310014 ≤ data.length := by
  rcases detect_ok_cases data r h with ⟨h1, _⟩ | ⟨_, h2, _⟩
  · exact bytes_at_length_of_eq_magic data _ h1
  · exact h2

/-- The result of `compress_iso` on an image that detection accepts, when the
first volume has been created. -/
theorem compress_iso_of_detect (env : Env) (data : List Nat) (r : Nat × IfStream)
    (hfin : env.fin_opens = true) (h1 : env.fout_1_opens = true)
    (h : detect_iso_type (IfStream.open_file data) = Except.ok r) :
    compress_iso env 0 data = Except.ok (run_output data) ∧
    compress_iso_setup env 0 data = Except.ok (run_setup data) := by
  have hlen := length_of_detect_ok data r h
  have key : ∀ o p, o ≤ data.length → run_origin data = o →
      detect_iso_type (IfStream.open_file data)
        = Except.ok (o, { data := data, pos := p, eofbit := false, failbit := false }) →
      compress_iso env 0 data = Except.ok (run_output data) ∧
      compress_iso_setup env 0 data = Except.ok (run_setup data) := by
    intro o p ho hro hdet
    have hdet2 : detect_iso_type (IfStream.construct env.fin_opens data)
        = Except.ok (o, { data := data, pos := p, eofbit := false, failbit := false }) := by
      rw [hfin]
      exact hdet
    have hs := compress_iso_setup_eq env data o p ho h1 hdet2
    subst hro
    refine ⟨?_, hs⟩
    rw [compress_iso, hs]
    simp only [ciso.get_total_blocks, loop_state_run_final, run_output]
  rcases detect_ok_cases data r h with ⟨h1, hr⟩ | ⟨h1, _, _, hr⟩
  · rw [hr] at h
    exact key _ _ (by omega) (by unfold run_origin; rw [if_pos h1]) h
  · rw [hr] at h
    exact key _ _ (by omega) (by unfold run_origin; rw [if_neg h1]) h

/-- The result of `compress_iso` on an image that detection accepts, when the
first volume could not be created. -/
theorem compress_iso_of_detect_failed (env : Env) (data : List Nat) (r : Nat × IfStream)
    (hfin : env.fin_opens = true) (h1 : env.fout_1_opens = false)
    (h : detect_iso_type (IfStream.open_file data) = Except.ok r) :
    compress_iso env 0 data = Except.ok (failed_output env data) ∧
    compress_iso_setup env 0 data = Except.ok (failed_setup data) := by
  have hlen := length_of_detect_ok data r h
  have key : ∀ o p, o ≤ data.length → run_origin data = o →
      detect_iso_type (IfStream.open_file data)
        = Except.ok (o, { data := data, pos := p, eofbit := false, failbit := false }) →
      compress_iso env 0 data = Except.ok (failed_output env data) ∧
      compress_iso_setup env 0 data = Except.ok (failed_setup data) := by
    intro o p ho hro hdet
    have hdet2 : detect_iso_type (IfStream.construct env.fin_opens data)
        = Except.ok (o, { data := data, pos := p, eofbit := false, failbit := false }) := by
      rw [hfin]
      exact hdet
    have hs := compress_iso_setup_failed env data o p ho h1 hdet2
    subst hro
    refine ⟨?_, hs⟩
    rw [compress_iso, hs]
    simp only [ciso.get_total_blocks, loop_state_failed_final, failed_output]
  rcases detect_ok_cases data r h with ⟨h1, hr⟩ | ⟨h1, _, _, hr⟩
  · rw [hr] at h
    exact key _ _ (by omega) (by unfold run_origin; rw [if_pos h1]) h
  · rw [hr] at h
    exact key _ _ (by omega) (by unfold run_origin; rw [if_neg h1]) h

/-- A run that gets as far as the block loop has a working codec context, an
input file that could be opened and an image that detection accepts. -/
theorem detect_of_setup_ok (env : Env) (lz4_ret : Nat) (data : List Nat) (s : Setup)
    (h : compress_iso_setup env lz4_ret data = Except.ok s) :
    lz4_ret = 0 ∧ env.fin_opens = true ∧
    ∃ r, detect_iso_type (IfStream.open_file data) = Except.ok r := by
  by_cases hl : lz4_ret = 0
  · by_cases hfin : env.fin_opens = true
    · cases hdet : detect_iso_type (IfStream.open_file data) with
      | error e =>
        have hdet2 : detect_iso_type (IfStream.construct env.fin_opens data)
            = Except.error e := by
          rw [hfin]
          exact hdet
        rw [compress_iso_setup, if_neg (by omega), hdet2] at h
        cases h
      | ok r => exact ⟨hl, hfin, r, rfl⟩
    · have hf : env.fin_opens = false := by simpa using hfin
      have hdet2 : detect_iso_type (IfStream.construct env.fin_opens data)
          = Except.error 1 := by
        rw [hf]
        exact detect_not_opened
      rw [compress_iso_setup, if_neg (by omega), hdet2] at h
      cases h
  · rw [compress_iso_setup, if_pos hl] at h
    cases h

/-- Every run of `compress_iso` that returns has one of the two closed forms. -/
theorem compress_iso_cases (env : Env) (lz4_ret : Nat) (data : List Nat) (out : Output)
    (h : compress_iso env lz4_ret data = Except.ok out) :
    0x18310014 ≤ data.length ∧
    ((env.fout_1_opens = true ∧ out = run_output data) ∨
      (env.fout_1_opens = false ∧ out = failed_output env data)) := by
  cases hs : compress_iso_setup env lz4_ret data with
  | error e =>
    rw [compress_iso, hs] at h
    cases h
  | ok s =>
    obtain ⟨hl, hfin, r, hdet⟩ := detect_of_setup_ok env lz4_ret data s hs
    subst hl
    refine ⟨length_of_detect_ok data r hdet, ?_⟩
    by_cases h1 : env.fout_1_opens = true
    · rw [(compress_iso_of_detect env data r hfin h1 hdet).1] at h
      exact Or.inl ⟨h1, (Except.ok.inj h).symm⟩
    · have h1f : env.fout_1_opens = false := by simpa using h1
      rw [(compress_iso_of_detect_failed env data r hfin h1f hdet).1] at h
      exact Or.inr ⟨h1f, (Except.ok.inj h).symm⟩

/-- Every run of `compress_iso` that returns after creating the first volume
has the closed form `run_output`. -/
theorem compress_iso_ok (env : Env) (lz4_ret : Nat) (data : List Nat) (out : Output)
    (h1 : env.fout_1_opens = true)
    (h : compress_iso env lz4_ret data = Except.ok out) :
    out = run_output data ∧ 0x18310014 ≤ data.length := by
  obtain ⟨hlen, hc⟩ := compress_iso_cases env lz4_ret data out h
  rcases hc with ⟨_, ho⟩ | ⟨hf, _⟩
  · exact ⟨ho, hlen⟩
  · rw [h1] at hf
    cases hf

/-! ## The index of a run -/

theorem getD_replicate_append (n m v i : Nat) :
    (List.replicate n v ++ List.replicate m 0).getD i 0 = if i < n then v else 0 := by
  by_cases h : i < n
  · rw [if_pos h, List.getD_append _ _ _ _ (by simpa using h)]
    simp [List.getElem?_replicate, h]
  · rw [if_neg h, List.getD_append_right _ _ _ _ (by simpa using Nat.le_of_not_lt h)]
    simp only [List.getD_eq_getElem?_getD, List.getElem?_replicate]
    split <;> rfl

/-- The in-memory index at the end of a run: every block entry holds the
aligned position after the placeholder index, shifted; the sentinel is 0. -/
theorem index_entry_run_output (data : List Nat) (i : Nat) :
    index_entry (run_output data) i
      = if i < (run_desc data (run_origin data)).total_blocks then
          (index_end (run_desc data (run_origin data)) +
            first_pad (run_desc data (run_origin data))) / 4
        else 0 := by
  unfold index_entry run_output run_final
  by_cases h : (run_desc data (run_origin data)).total_blocks = 0
  · simp only [if_pos h, run_init, h]
    simp
  · simp only [if_neg h, run_state]
    exact getD_replicate_append _ _ _ i

theorem getD_replicate_zero (n i : Nat) : (List.replicate n (0 : Nat)).getD i 0 = 0 := by
  simp only [List.getD_eq_getElem?_getD, List.getElem?_replicate]
  split <;> rfl

/-- When the first volume could not be created every entry of the in-memory
index is 0 at the end of the run. -/
theorem index_entry_failed_output (env : Env) (data : List Nat) (i : Nat) :
    index_entry (failed_output env data) i = 0 := by
  unfold index_entry failed_output failed_final
  by_cases h : (run_desc data (run_origin data)).total_blocks = 0
  · simp only [if_pos h, failed_init]
    exact getD_replicate_zero _ i
  · simp only [if_neg h, failed_state]
    exact getD_replicate_zero _ i

theorem reader_block_length_failed_output (env : Env) (data : List Nat) (i : Nat) :
    reader_block_length (failed_output env data) i = 0 := by
  unfold reader_block_length
  rw [index_entry_failed_output, index_entry_failed_output, Nat.shiftLeft_eq, Nat.zero_mul]
  exact Int.sub_self _

/-! ## Runs on the smallest Redump images -/

theorem run_origin_redump_image (fill : Nat) :
    run_origin (redump_image fill) = 0x18300000 := by
  unfold run_origin
  rw [if_pos (bytes_at_redump_image fill)]

theorem run_desc_redump_image (fill : Nat) :
    run_desc (redump_image fill) (run_origin (redump_image fill))
      = ciso.ciso_uint32 65556 := by
  rw [run_origin_redump_image]
  unfold run_desc
  rw [length_redump_image]
  have : (0x18310014 - 0x18300000) % 2 ^ 32 = 65556 := by decide
  rw [this]

/-- The run of `compress_iso` on the smallest Redump image returns. -/
theorem compress_iso_redump_image (fill : Nat) :
    compress_iso ok_env 0 (redump_image fill) = Except.ok (run_output (redump_image fill)) ∧
    compress_iso_setup ok_env 0 (redump_image fill)
      = Except.ok (run_setup (redump_image fill)) :=
  compress_iso_of_detect ok_env _ _ rfl rfl (detect_redump _ (bytes_at_redump_image fill))

/-- The run of `compress_iso` on the smallest Redump image also returns when
the first volume cannot be created. -/
theorem compress_iso_redump_image_failed (env : Env) (hfin : env.fin_opens = true)
    (h1 : env.fout_1_opens = false) (fill : Nat) :
    compress_iso env 0 (redump_image fill)
      = Except.ok (failed_output env (redump_image fill)) ∧
    compress_iso_setup env 0 (redump_image fill)
      = Except.ok (failed_setup (redump_image fill)) :=
  compress_iso_of_detect_failed env _ _ hfin h1 (detect_redump _ (bytes_at_redump_image fill))

theorem total_blocks_redump_image (fill : Nat) :
    (run_output (redump_image fill)).desc.total_blocks = 32 := by
  show (run_desc (redump_image fill) (run_origin (redump_image fill))).total_blocks = 32
  rw [run_desc_redump_image]
  decide

theorem index_entry_redump_image (fill : Nat) (i : Nat) :
    index_entry (run_output (redump_image fill)) i = if i < 32 then 37 else 0 := by
  rw [index_entry_run_output, run_desc_redump_image]
  have h1 : (ciso.ciso_uint32 65556).total_blocks = 32 := by decide
  have h2 : (index_end (ciso.ciso_uint32 65556) + first_pad (ciso.ciso_uint32 65556)) / 4 = 37 := by
    decide
  rw [h1, h2]

/-! ## The serialized index, the reader's lengths, the block reads, the split check -/

theorem reader_block_length_run_output (data : List Nat) (i : Nat) :
    reader_block_length (run_output data) i
      = ((index_entry (run_output data) (i + 1) * 4 : Nat) : Int) -
          ((index_entry (run_output data) i * 4 : Nat) : Int) := by
  unfold reader_block_length
  have : (run_output data).desc.get_align = 2 := rfl
  rw [this, Nat.shiftLeft_eq, Nat.shiftLeft_eq]

/-- C8 as stated fails: on the smallest Redump image (32 blocks) the sentinel
`index[32]` is 0 while `index[31] = 37`, so the length a reader computes for
the last block, `(0 << 2) - (37 << 2) = -148`, is negative. -/
theorem C8_counterexample :
    compress_iso ok_env 0 (redump_image 0) = Except.ok (run_output (redump_image 0)) ∧
    (run_output (redump_image 0)).desc.total_blocks = 32 ∧
    index_entry (run_output (redump_image 0)) 31 = 37 ∧
    index_entry (run_output (redump_image 0)) 32 = 0 ∧
    reader_block_length (run_output (redump_image 0)) 31 = -148 ∧
    ¬ (0 ≤ reader_block_length (run_output (redump_image 0)) 31) := by
  have h31 : index_entry (run_output (redump_image 0)) 31 = 37 := by
    rw [index_entry_redump_image]
    rfl
  have h32 : index_entry (run_output (redump_image 0)) (31 + 1) = 0 := by
    rw [index_entry_redump_image]
    rfl
  have hl : reader_block_length (run_output (redump_image 0)) 31 = -148 := by
    rw [reader_block_length_run_output, h31, h32]
    rfl
  refine ⟨(compress_iso_redump_image 0).1, total_blocks_redump_image 0, h31, h32, hl, ?_⟩
  rw [hl]
  decide

/-- C8 (amended): for every accepted input, in every environment, and every
`i` with `i + 1 < total_blocks`, the length a reader computes for block `i`
from the index left by `compress_iso` is non-negative; the sentinel entry
`index[total_blocks]` is not written and is still 0. -/
theorem C8_block_lengths_nonneg (env : Env) (lz4_ret : Nat) (data : List Nat) (out : Output)
    (h : compress_iso env lz4_ret data = Except.ok out) (i : Nat)
    (hi : i + 1 < out.desc.total_blocks) :
    0 ≤ reader_block_length out i ∧ index_entry out out.desc.total_blocks = 0 := by
  obtain ⟨_, hc⟩ := compress_iso_cases env lz4_ret data out h
  rcases hc with ⟨_, rfl⟩ | ⟨_, rfl⟩
  · have hi2 : i + 1 < (run_desc data (run_origin data)).total_blocks := hi
    refine ⟨?_, ?_⟩
    · rw [reader_block_length_run_output, index_entry_run_output, index_entry_run_output,
        if_pos hi2, if_pos (by omega)]
      omega
    · rw [index_entry_run_output]
      exact if_neg (Nat.lt_irrefl _)
  · refine ⟨?_, index_entry_failed_output env data _⟩
    rw [reader_block_length_failed_output]

/-- C8 (amended), at the smallest Redump image and block 0. -/
theorem C8_block_lengths_nonneg_witness :
    compress_iso ok_env 0 (redump_image 0) = Except.ok (run_output (redump_image 0)) ∧
    0 + 1 < (run_output (redump_image 0)).desc.total_blocks ∧
    0 ≤ reader_block_length (run_output (redump_image 0)) 0 :=
  ⟨(compress_iso_redump_image 0).1,
    by rw [total_blocks_redump_image]; decide,
    (C8_block_lengths_nonneg ok_env 0 (redump_image 0) (run_output (redump_image 0))
      (compress_iso_redump_image 0).1 0 (by rw [total_blocks_redump_image]; decide)).1⟩

theorem take_drop_replicate_append (n k m fill : Nat) (l : List Nat) (h : k + m ≤ n) :
    ((List.replicate n fill ++ l).drop k).take m = List.replicate m fill := by
  rw [List.drop_append_of_le_length (by rw [List.length_replicate]; omega),
    List.take_append_of_le_length (by rw [List.length_drop, List.length_replicate]; omega),
    List.drop_replicate, List.take_replicate, Nat.min_eq_left (by omega)]

/-- In every iteration of a run the read leaves `raw_data` as it was
initialised: the stream is at the end of the file when the loop is entered. -/
theorem raw_data_read_run_setup (env : Env) (data : List Nat) (i : Nat)
    (hi : i < (run_setup data).desc.total_blocks + 1) :
    raw_data_read env (run_setup data) i = raw_data_init := by
  unfold raw_data_read
  show (loop_body env (run_desc data (run_origin data))
    (loop_state env (run_desc data (run_origin data)) (run_init data (run_origin data)) i)
    i).raw_data = raw_data_init
  cases i with
  | zero =>
    have h0 : loop_state env (run_desc data (run_origin data))
        (run_init data (run_origin data)) 0 = run_init data (run_origin data) := rfl
    rw [h0, loop_body_run_init]
    rfl
  | succ k =>
    rw [loop_state_run env data (run_origin data) k (Nat.lt_of_succ_lt hi),
      loop_body_run_state env data (run_origin data) (k + 1) hi]
    rfl

/-- The block loop of a run is entered with the read cursor at the end of the file. -/
theorem fin_pos_run_setup (data : List Nat) :
    (run_setup data).init.fin.pos = data.length := rfl

theorem source_block_run_setup (data : List Nat) (i : Nat) :
    source_block data (run_setup data) i
      = (data.drop (run_origin data + i * 0x800)).take 0x800 := rfl

theorem raw_data_init_eq : raw_data_init = List.replicate 2048 0 := by
  unfold raw_data_init
  exact Eq.refl _

theorem image_offset_run_setup (data : List Nat) :
    (run_setup data).image_offset = run_origin data := rfl

theorem desc_run_setup (data : List Nat) :
    (run_setup data).desc = run_desc data (run_origin data) := rfl

theorem replicate_zero_ne_one (n : Nat) (h : 0 < n) :
    List.replicate n (0 : Nat) ≠ List.replicate n 1 := by
  intro he
  have hm : (1 : Nat) ∈ List.replicate n 0 := by
    rw [he]
    exact List.mem_replicate.2 ⟨by omega, rfl⟩
  exact absurd (List.eq_of_mem_replicate hm) (by decide)

/-- C9 (the code at the failing input): on the smallest Redump image filled
with bytes of value 1, with every file opened, block 0 of the source (the 2048
bytes from the origin `0x18300000` on) is 2048 bytes of value 1, but after the
read of iteration 0 `raw_data` holds 2048 NUL bytes: the loop is entered with
the read cursor at the end of the file, where `ciso(std::ifstream&)` left it,
and the read gets nothing. -/
theorem C9_raw_data_not_source_block :
    compress_iso_setup ok_env 0 (redump_image 1) = Except.ok (run_setup (redump_image 1)) ∧
    (run_setup (redump_image 1)).image_offset = 0x18300000 ∧
    (run_setup (redump_image 1)).desc.total_blocks = 32 ∧
    (run_setup (redump_image 1)).init.fin.pos = (redump_image 1).length ∧
    source_block (redump_image 1) (run_setup (redump_image 1)) 0 = List.replicate 2048 1 ∧
    raw_data_read ok_env (run_setup (redump_image 1)) 0 = List.replicate 2048 0 ∧
    raw_data_read ok_env (run_setup (redump_image 1)) 0
      ≠ source_block (redump_image 1) (run_setup (redump_image 1)) 0 := by
  have hsrc : source_block (redump_image 1) (run_setup (redump_image 1)) 0
      = List.replicate 2048 1 := by
    rw [source_block_run_setup, run_origin_redump_image, Nat.zero_mul, Nat.add_zero]
    exact take_drop_replicate_append 0x18310000 0x18300000 0x800 1 XBOX_MEDIA_MAGIC
      (by omega)
  have hraw : raw_data_read ok_env (run_setup (redump_image 1)) 0 = List.replicate 2048 0 :=
    (raw_data_read_run_setup ok_env (redump_image 1) 0 (by omega)).trans raw_data_init_eq
  have hoff : (run_setup (redump_image 1)).image_offset = 0x18300000 := by
    rw [image_offset_run_setup, run_origin_redump_image]
  have hblocks : (run_setup (redump_image 1)).desc.total_blocks = 32 := by
    rw [desc_run_setup, run_desc_redump_image]
    decide
  refine ⟨(compress_iso_redump_image 1).2, hoff, hblocks, fin_pos_run_setup _, hsrc, hraw, ?_⟩
  rw [hsrc, hraw]
  exact replicate_zero_ne_one 2048 (by decide)

theorem init_failed_setup (data : List Nat) :
    (failed_setup data).init = failed_init data (run_origin data) := rfl

theorem desc_failed_setup (data : List Nat) :
    (failed_setup data).desc = run_desc data (run_origin data) := rfl

theorem write_pos_failed_init (data : List Nat) (o : Nat) :
    (failed_init data o).write_pos = 2 ^ 64 - 1 := rfl

theorem ceiling_lt_failed_cursor : FATX_SIZE_LIMIT < 2 ^ 64 - 1 := by
  unfold FATX_SIZE_LIMIT
  omega

/-- The split check on the state in which the loop is entered when the first
volume could not be created. -/
theorem split_check_failed_init (env : Env) (data : List Nat) (o : Nat) :
    split_check env (failed_init data o)
      = { failed_init data o with
          fout_2 := OfStream.closed.open_file env.fout_2_opens
          split_second := true
          write_pos := 0 } := by
  unfold split_check
  rw [if_pos (show (failed_init data o).write_pos > FATX_SIZE_LIMIT from
    ceiling_lt_failed_cursor)]
  rfl

theorem ceiling_lt_second_volume_state : FATX_SIZE_LIMIT < second_volume_state.write_pos := by
  have h : second_volume_state.write_pos = 0xFFBF6004 := rfl
  rw [h]
  unfold FATX_SIZE_LIMIT
  omega

theorem split_check_second_volume_state (env : Env) :
    split_check env second_volume_state
      = { second_volume_state with
          fout_2 := second_volume_state.fout_2.open_file env.fout_2_opens
          split_second := true
          write_pos := 0 } := by
  unfold split_check
  rw [if_pos (show second_volume_state.write_pos > FATX_SIZE_LIMIT from
    ceiling_lt_second_volume_state)]

/-- C10 as stated fails.  First, in the run on the smallest Redump image in
which no output file can be created, iteration 0 starts with the cursor at
`2^64 - 1` (the `tellp()` of the failed first stream), above the ceiling; the
split check resets the cursor to 0 and points `split_fout` to `fout_2`, but
`fout_2.open` fails: `fout_2` is not open and has `failbit` set, so no new
volume has been switched to.  Second, on a loop state that is already on the
second volume with the cursor above the ceiling, `fout_2.open` fails because
the stream is open: `fout_2` keeps its 4 bytes and has `failbit` set, so again
no new volume is started. -/
theorem C10_counterexample :
    (compress_iso_setup no_output_env 0 (redump_image 0)
      = Except.ok (failed_setup (redump_image 0)) ∧
    (failed_setup (redump_image 0)).desc.total_blocks = 32 ∧
    (loop_state no_output_env (failed_setup (redump_image 0)).desc
      (failed_setup (redump_image 0)).init 0).write_pos = 2 ^ 64 - 1 ∧
    FATX_SIZE_LIMIT < 2 ^ 64 - 1 ∧
    (split_check no_output_env
      (loop_state no_output_env (failed_setup (redump_image 0)).desc
        (failed_setup (redump_image 0)).init 0)).write_pos = 0 ∧
    (split_check no_output_env
      (loop_state no_output_env (failed_setup (redump_image 0)).desc
        (failed_setup (redump_image 0)).init 0)).split_second = true ∧
    (split_check no_output_env
      (loop_state no_output_env (failed_setup (redump_image 0)).desc
        (failed_setup (redump_image 0)).init 0)).fout_2.is_open = false ∧
    (split_check no_output_env
      (loop_state no_output_env (failed_setup (redump_image 0)).desc
        (failed_setup (redump_image 0)).init 0)).fout_2.failbit = true) ∧
    (FATX_SIZE_LIMIT < second_volume_state.write_pos ∧
    (split_check ok_env second_volume_state).write_pos = 0 ∧
    (split_check ok_env second_volume_state).split_second = true ∧
    (split_check ok_env second_volume_state).fout_2.failbit = true ∧
    (split_check ok_env second_volume_state).fout_2.bytes = [1, 2, 3, 4]) := by
  have h0 : loop_state no_output_env (failed_setup (redump_image 0)).desc
      (failed_setup (redump_image 0)).init 0
      = failed_init (redump_image 0) (run_origin (redump_image 0)) := rfl
  have hblocks : (failed_setup (redump_image 0)).desc.total_blocks = 32 := by
    rw [desc_failed_setup, run_desc_redump_image]
    decide
  rw [h0, split_check_failed_init, split_check_second_volume_state]
  exact ⟨⟨(compress_iso_redump_image_failed no_output_env rfl rfl 0).2, hblocks,
    rfl, ceiling_lt_failed_cursor, rfl, rfl, rfl, rfl⟩,
    ⟨ceiling_lt_second_volume_state, rfl, rfl, rfl, rfl⟩⟩

/-- C10 (amended): every iteration of the block loop starts with the split
check, and the cursor that the check leaves, with which the block write
begins, is at most `FATX_SIZE_LIMIT = 0xFFBF6000`; a cursor at or below the
ceiling leaves the state alone.  When the cursor was above the ceiling the
check resets it to 0 and points `split_fout` to `fout_2` after calling
`fout_2.open`: if `fout_2` was not open and the file can be created, `fout_2`
is then a new, empty, good volume; if the file cannot be created or `fout_2`
was open already, the call only sets `failbit` on `fout_2` and no new volume
is started. -/
theorem C10_cursor_le_ceiling_after_check (env : Env) (c : ciso) (s : LoopState)
    (block : Nat) :
    loop_body env c s block
      = read_raw c (mark_offset c (write_alignment c (split_check env s)) block) ∧
    (split_check env s).write_pos ≤ 0xFFBF6000 ∧
    (s.write_pos ≤ 0xFFBF6000 → split_check env s = s) ∧
    (0xFFBF6000 < s.write_pos →
      (split_check env s).write_pos = 0 ∧
      (split_check env s).split_second = true ∧
      (split_check env s).fout_1 = s.fout_1 ∧
      (s.fout_2.is_open = false → env.fout_2_opens = true →
        (split_check env s).fout_2
          = { s.fout_2 with is_open := true, failbit := false, bytes := [] } ∧
        (split_fout (split_check env s)).good = true ∧
        (split_fout (split_check env s)).bytes = []) ∧
      (s.fout_2.is_open = true ∨ env.fout_2_opens = false →
        (split_check env s).fout_2 = { s.fout_2 with failbit := true } ∧
        (split_fout (split_check env s)).good = false)) := by
  refine ⟨rfl, ?_, ?_, ?_⟩
  · unfold split_check FATX_SIZE_LIMIT
    by_cases h : s.write_pos > 0xFFBF6000
    · rw [if_pos h]
      exact Nat.zero_le _
    · rw [if_neg h]
      omega
  · intro h
    exact split_check_of_le env s h
  · intro h
    have hs : split_check env s
        = { s with fout_2 := s.fout_2.open_file env.fout_2_opens, split_second := true,
                   write_pos := 0 } := by
      unfold split_check
      rw [if_pos (show s.write_pos > FATX_SIZE_LIMIT from h)]
    rw [hs]
    refine ⟨rfl, rfl, rfl, ?_, ?_⟩
    · intro hclosed hcan
      simp only [split_fout, OfStream.open_file, OfStream.good, hclosed, hcan,
        Bool.false_eq_true, if_false, if_true, Bool.not_false, Bool.and_self, and_self]
    · intro hor
      rcases hor with hopen | hcannot
      · simp only [split_fout, OfStream.open_file, OfStream.good, hopen, if_true,
          Bool.not_true, Bool.and_false, and_self]
      · by_cases hopen : s.fout_2.is_open = true
        · simp only [split_fout, OfStream.open_file, OfStream.good, hopen, if_true,
            Bool.not_true, Bool.and_false, and_self]
        · have hclosed : s.fout_2.is_open = false := by simpa using hopen
          simp [split_fout, OfStream.open_file, OfStream.good, hclosed, hcannot]

theorem ceiling_lt_over_ceiling_state : 0xFFBF6000 < over_ceiling_state.write_pos := by
  have h : over_ceiling_state.write_pos = 0xFFBF6004 := rfl
  rw [h]
  omega

/-- C10 (amended), at a state whose cursor is above the ceiling and whose
second volume is not open, with every file creatable: the check opens the
second volume, empty, and resets the cursor to 0. -/
theorem C10_cursor_le_ceiling_after_check_witness :
    0xFFBF6000 < over_ceiling_state.write_pos ∧
    (split_check ok_env over_ceiling_state).write_pos = 0 ∧
    (split_check ok_env over_ceiling_state).fout_2
      = { over_ceiling_state.fout_2 with is_open := true, failbit := false, bytes := [] } :=
  ⟨ceiling_lt_over_ceiling_state,
    ((C10_cursor_le_ceiling_after_check ok_env (ciso.ciso_uint32 4096) over_ceiling_state
      0).2.2.2 ceiling_lt_over_ceiling_state).1,
    (((C10_cursor_le_ceiling_after_check ok_env (ciso.ciso_uint32 4096) over_ceiling_state
      0).2.2.2 ceiling_lt_over_ceiling_state).2.2.2.1 rfl rfl).1⟩

/-! ## End-to-end scenario 1: a 4096-byte image -/

/-- When detection ends the process with status 1 on the opened input file, so
does `compress_iso`, whatever the environment (an input file that cannot be
opened is rejected with status 1 as well). -/
theorem compress_iso_of_detect_error (env : Env) (data : List Nat)
    (h : detect_iso_type (IfStream.open_file data) = Except.error 1) :
    compress_iso env 0 data = Except.error 1 := by
  have hdet : detect_iso_type (IfStream.construct env.fin_opens data) = Except.error 1 := by
    by_cases hfin : env.fin_opens = true
    · rw [hfin]
      exact h
    · have hf : env.fin_opens = false := by simpa using hfin
      rw [hf]
      exact detect_not_opened
  rw [compress_iso, compress_iso_setup, hdet]
  rfl

theorem length_tiny_xdvdfs_image : tiny_xdvdfs_image.length = 4096 := by
  unfold tiny_xdvdfs_image
  rw [List.length_append, List.length_replicate, length_magic]

theorem bytes_at_tiny_xdvdfs_image : bytes_at tiny_xdvdfs_image 0 = XBOX_MEDIA_MAGIC := by
  unfold bytes_at tiny_xdvdfs_image
  rw [List.drop_zero, List.take_left' length_magic]

/-- C11 as stated fails: the 4096-byte image that carries the signature at
offset 0 is not accepted; `detect_iso_type` and with it `compress_iso` end the
process with status 1, so there is no descriptor with `total_blocks = 2` and no
index. -/
theorem C11_counterexample :
    tiny_xdvdfs_image.length = 4096 ∧
    bytes_at tiny_xdvdfs_image 0 = XBOX_MEDIA_MAGIC ∧
    detect_iso_type (IfStream.open_file tiny_xdvdfs_image) = Except.error 1 ∧
    compress_iso ok_env 0 tiny_xdvdfs_image = Except.error 1 := by
  have hlen := length_tiny_xdvdfs_image
  have hd := detect_short tiny_xdvdfs_image (by omega)
  exact ⟨hlen, bytes_at_tiny_xdvdfs_image, hd, compress_iso_of_detect_error _ _ hd⟩

/-- C11 (amended): for every 4096-byte image, whatever its bytes (the signature
at offset 0 included) and whatever the environment, `compress_iso` does not
succeed: the file ends before the probe positions `0x10000` and `0x18310000`,
layout detection fails and the process exits with status 1. -/
theorem C11_small_image_rejected (env : Env) (data : List Nat) (h : data.length = 4096) :
    detect_iso_type (IfStream.open_file data) = Except.error 1 ∧
    compress_iso env 0 data = Except.error 1 := by
  have hd := detect_short data (by omega)
  exact ⟨hd, compress_iso_of_detect_error _ _ hd⟩

/-- C11 (amended), at the 4096-byte image with the signature at offset 0. -/
theorem C11_small_image_rejected_witness :
    tiny_xdvdfs_image.length = 4096 ∧
    compress_iso ok_env 0 tiny_xdvdfs_image = Except.error 1 :=
  ⟨length_tiny_xdvdfs_image,
    (C11_small_image_rejected ok_env tiny_xdvdfs_image length_tiny_xdvdfs_image).2⟩

/-! ## End-to-end scenario 2: a payload of the ceiling plus one block -/

theorem land_1023 (w : Nat) : w &&& 0x3FF = w % 1024 :=
  Nat.and_pow_two_sub_one_eq_mod w 10

/-- On an open stream that has not failed, with field width 0, `pad_file_size`
appends `1024 - size mod 1024` NUL bytes. -/
theorem pad_file_size_bytes (f : OfStream) (hopen : f.is_open = true)
    (hfail : f.failbit = false) (hw : f.width = 0) (hlen : f.bytes.length < 2 ^ 64) :
    (pad_file_size f).bytes
      = f.bytes ++ List.replicate (1024 - f.bytes.length % 1024) 0 := by
  have hsize : to_size_t (f.bytes.length : Int) = f.bytes.length := by
    unfold to_size_t
    omega
  unfold pad_file_size OfStream.tellp OfStream.insert OfStream.good
  simp only [hopen, hfail, hw, Bool.false_eq_true, if_false, Bool.not_false, Bool.and_self,
    if_true, hsize, land_1023, Nat.zero_sub, List.replicate_zero, List.append_nil]

theorem bytes_one_kib_file : one_kib_file.bytes = List.replicate 1024 7 := by
  unfold one_kib_file
  exact Eq.refl _

/-- C13 (the code at the failing input): a file of exactly 1024 bytes, a
multiple of 1024 already, is grown by `pad_file_size` to 2048 bytes: 1024 NUL
bytes are appended, since `0x400 - (size & 0x3FF)` is `0x400` when the size is
aligned. -/
theorem C13_aligned_file_grows :
    one_kib_file.bytes.length = 1024 ∧
    (pad_file_size one_kib_file).bytes = one_kib_file.bytes ++ List.replicate 1024 0 ∧
    (pad_file_size one_kib_file).bytes.length = 2048 := by
  have hl : one_kib_file.bytes.length = 1024 := by
    rw [bytes_one_kib_file, List.length_replicate]
  have hp := pad_file_size_bytes one_kib_file rfl rfl rfl (by rw [hl]; decide)
  rw [hl] at hp
  refine ⟨hl, hp, ?_⟩
  rw [hp, List.length_append, hl, List.length_replicate]

/-! ## Monotone entries, a stream shorter than the origin, the fixed fields -/

/-- C14: for every accepted input, in every environment, the block entries
recorded by `compress_iso` are non-decreasing in block order:
`block_index[i] >= block_index[i-1]` for `0 < i < total_blocks`. -/
theorem C14_block_entries_monotone (env : Env) (lz4_ret : Nat) (data : List Nat)
    (out : Output) (h : compress_iso env lz4_ret data = Except.ok out) (i : Nat)
    (h0 : 0 < i) (hi : i < out.desc.total_blocks) :
    index_entry out (i - 1) ≤ index_entry out i := by
  obtain ⟨_, hc⟩ := compress_iso_cases env lz4_ret data out h
  rcases hc with ⟨_, rfl⟩ | ⟨_, rfl⟩
  · have hi2 : i < (run_desc data (run_origin data)).total_blocks := hi
    rw [index_entry_run_output, index_entry_run_output, if_pos hi2, if_pos (by omega)]
  · rw [index_entry_failed_output, index_entry_failed_output]

/-- C14, at the smallest Redump image and `i = 1`. -/
theorem C14_block_entries_monotone_witness :
    compress_iso ok_env 0 (redump_image 0) = Except.ok (run_output (redump_image 0)) ∧
    0 < 1 ∧ 1 < (run_output (redump_image 0)).desc.total_blocks ∧
    index_entry (run_output (redump_image 0)) (1 - 1)
      ≤ index_entry (run_output (redump_image 0)) 1 :=
  ⟨(compress_iso_redump_image 0).1, Nat.one_pos,
    by rw [total_blocks_redump_image]; omega,
    C14_block_entries_monotone ok_env 0 (redump_image 0) (run_output (redump_image 0))
      (compress_iso_redump_image 0).1 1 Nat.one_pos
      (by rw [total_blocks_redump_image]; omega)⟩

/-- The chain of conversions in `(int32_t)f.tellg() - image_offset` when the
stream is shorter than the origin: the difference wraps around modulo `2^32`. -/
theorem file_size_arith_lt (L o : Nat) (h : L < o) :
    to_uint32 (to_size_t ((to_size_t (to_int32 (L : Int)) : Int) - (o : Int)))
      = (2 ^ 32 - (o - L) % 2 ^ 32) % 2 ^ 32 := by
  rw [to_uint32_to_size_t_sub]
  have ha := to_size_t_to_int32_mod L
  generalize to_size_t (to_int32 (L : Int)) = a at ha ⊢
  omega

/-- C15 as stated fails: for a stream of 100 bytes and the origin `0x18300000`
the constructor reports no error and builds a descriptor, with
`total_bytes = 2^32 + 100 - 0x18300000 = 3889168484` and
`total_blocks = 1899008`. -/
theorem C15_counterexample :
    (List.replicate 100 (0 : Nat)).length < 0x18300000 ∧
    (ciso.ciso_ifstream (IfStream.open_file (List.replicate 100 0)) 0x18300000).1
      = ciso.ciso_uint32 3889168484 ∧
    (ciso.ciso_ifstream (IfStream.open_file (List.replicate 100 0))
      0x18300000).1.total_bytes = 3889168484 ∧
    (ciso.ciso_ifstream (IfStream.open_file (List.replicate 100 0))
      0x18300000).1.total_blocks = 1899008 := by
  decide

/-- C15 (amended): for a stream that has not failed, over a file of `L` bytes,
and an origin `o > L`, `ciso(std::ifstream&)` makes no check and reports no
error: it builds the descriptor `ciso(t)` with
`t = (L - o) mod 2^32 = (2^32 - (o - L) mod 2^32) mod 2^32`, so
`total_bytes = t` and `total_blocks = floor(t / 2048)`. -/
theorem C15_descriptor_below_origin (data : List Nat) (pos : Nat) (eof : Bool) (o : Nat)
    (ho : data.length < o) :
    (ciso.ciso_ifstream { data := data, pos := pos, eofbit := eof, failbit := false } o).1
      = ciso.ciso_uint32 ((2 ^ 32 - (o - data.length) % 2 ^ 32) % 2 ^ 32) ∧
    (ciso.ciso_ifstream { data := data, pos := pos, eofbit := eof, failbit := false }
        o).1.total_bytes = (2 ^ 32 - (o - data.length) % 2 ^ 32) % 2 ^ 32 ∧
    (ciso.ciso_ifstream { data := data, pos := pos, eofbit := eof, failbit := false }
        o).1.total_blocks = (2 ^ 32 - (o - data.length) % 2 ^ 32) % 2 ^ 32 / 2048 := by
  have hd := ciso_ifstream_eq
    { data := data, pos := pos, eofbit := eof, failbit := false } o rfl
  simp only [] at hd
  rw [file_size_arith_lt _ _ ho] at hd
  rw [hd]
  exact ⟨rfl, rfl, rfl⟩

/-- C15 (amended), at a stream of 100 bytes and the origin `0x18300000`. -/
theorem C15_descriptor_below_origin_witness :
    (List.replicate 100 (0 : Nat)).length < 0x18300000 ∧
    (ciso.ciso_ifstream
        { data := List.replicate 100 0, pos := 0, eofbit := false, failbit := false }
        0x18300000).1.total_bytes
      = (2 ^ 32 - (0x18300000 - (List.replicate 100 (0 : Nat)).length) % 2 ^ 32) % 2 ^ 32 :=
  ⟨by decide,
    (C15_descriptor_below_origin (List.replicate 100 0) 0 false 0x18300000 (by decide)).2.1⟩

/-- C17: for every 32-bit `total_bytes` the descriptor `ciso(total_bytes)` has
block size 2048, version 2, alignment shift 2, and a `total_blocks` with
`total_blocks * 2048 <= total_bytes < (total_blocks + 1) * 2048`. -/
theorem C17_descriptor_fields (total_bytes : Nat) (h : total_bytes < 2 ^ 32) :
    (ciso.ciso_uint32 total_bytes).block_size = 2048 ∧
    (ciso.ciso_uint32 total_bytes).ver = 2 ∧
    (ciso.ciso_uint32 total_bytes).align = 2 ∧
    (ciso.ciso_uint32 total_bytes).total_bytes = total_bytes ∧
    (ciso.ciso_uint32 total_bytes).total_blocks < 2 ^ 32 ∧
    (ciso.ciso_uint32 total_bytes).total_blocks * 2048 ≤ total_bytes ∧
    total_bytes < ((ciso.ciso_uint32 total_bytes).total_blocks + 1) * 2048 := by
  simp only [ciso.ciso_uint32, CISO_BLOCK_SIZE]
  refine ⟨trivial, trivial, trivial, trivial, ?_, ?_, ?_⟩ <;> omega

/-- C17, at `total_bytes = 4097`. -/
theorem C17_descriptor_fields_witness :
    4097 < 2 ^ 32 ∧
    (ciso.ciso_uint32 4097).total_blocks * 2048 ≤ 4097 ∧
    4097 < ((ciso.ciso_uint32 4097).total_blocks + 1) * 2048 :=
  ⟨by decide, (C17_descriptor_fields 4097 (by decide)).2.2.2.2.2⟩

/-! ## The alignment step -/

theorem write_pos_split_write (s : LoopState) (bytes : List Nat) :
    (split_write s bytes).write_pos = s.write_pos := by
  unfold split_write
  split <;> rfl

theorem block_index_split_write (s : LoopState) (bytes : List Nat) :
    (split_write s bytes).block_index = s.block_index := by
  unfold split_write
  split <;> rfl

/-- The alignment step for the shift 2, on a cursor that fits 32 bits: every
case of lines 164-169 written out. -/
theorem write_alignment_eq (c : ciso) (hc : c.align = 2) (s : LoopState)
    (hw : s.write_pos < 2 ^ 32) :
    write_alignment c s
      = if align_pad s.write_pos = 0 then s
        else { split_write s (List.replicate (align_pad s.write_pos) 0) with
                write_pos := s.write_pos + align_pad s.write_pos } := by
  unfold align_pad
  by_cases h : s.write_pos % 4 = 0
  · rw [write_alignment_aligned c hc s h, h]
    rfl
  · have hlt : s.write_pos % 4 < 4 := Nat.mod_lt _ (by decide)
    have h1 : to_uint32 (s.write_pos % 4) = s.write_pos % 4 := by
      unfold to_uint32; omega
    have h2 : to_uint32 (4 + 2 ^ 32 - s.write_pos % 4) = 4 - s.write_pos % 4 := by
      unfold to_uint32; omega
    have h3 : (4 - s.write_pos % 4) % 4 = 4 - s.write_pos % 4 := by omega
    have h4 : (s.write_pos + (4 - s.write_pos % 4)) % 2 ^ 64
        = s.write_pos + (4 - s.write_pos % 4) := by
      omega
    have h5 : ¬ (4 - s.write_pos % 4 = 0) := by omega
    unfold write_alignment
    simp only [align_m_eq c hc, align_b_eq c hc, land_three, h1, h2, h3, ne_eq, h,
      not_false_eq_true, if_true, write_pos_split_write, h4, h5, if_false,
      take_alignment_buffer _ (show 4 - s.write_pos % 4 ≤ 65 by omega)]

/-- The bytes that a write through `split_fout` adds when that stream is good. -/
theorem split_fout_split_write (s : LoopState) (bytes : List Nat)
    (hg : (split_fout s).good = true) :
    (split_fout (split_write s bytes)).bytes = (split_fout s).bytes ++ bytes := by
  unfold split_fout split_write at *
  by_cases h : s.split_second = true
  · simp only [h, if_true] at hg ⊢
    simp only [OfStream.write, hg, if_true]
  · simp only [h, Bool.false_eq_true, if_false] at hg ⊢
    simp only [OfStream.write, hg, if_true]

theorem write_pos_demo_state_le : demo_state.write_pos ≤ FATX_SIZE_LIMIT := by
  have h : demo_state.write_pos = 29 := rfl
  rw [h]
  unfold FATX_SIZE_LIMIT
  omega

/-- C16: for a cursor `c` at the start of the alignment step (at most the
ceiling, as the split check leaves it) and the alignment shift 2, the step
writes exactly `p = (4 - c mod 4) mod 4` NUL bytes through `split_fout`,
`0 <= p < 4`, and leaves the cursor at `c + p`, the least multiple of 4 that
is `>= c`; the entry recorded for the block is `(c + p) >> 2`, and shifting it
left by 2 gives `c + p` back. -/
theorem C16_alignment_step (c : ciso) (hc : c.get_align = 2) (s : LoopState)
    (hw : s.write_pos ≤ FATX_SIZE_LIMIT) (block : Nat) :
    align_pad s.write_pos < 4 ∧
    write_alignment c s
      = (if align_pad s.write_pos = 0 then s
         else { split_write s (List.replicate (align_pad s.write_pos) 0) with
                 write_pos := s.write_pos + align_pad s.write_pos }) ∧
    ((split_fout s).good = true →
      (split_fout (write_alignment c s)).bytes
        = (split_fout s).bytes ++ List.replicate (align_pad s.write_pos) 0) ∧
    (write_alignment c s).write_pos = s.write_pos + align_pad s.write_pos ∧
    (write_alignment c s).write_pos % 4 = 0 ∧
    (∀ m, m % 4 = 0 → s.write_pos ≤ m → (write_alignment c s).write_pos ≤ m) ∧
    (mark_offset c (write_alignment c s) block).block_index
      = (write_alignment c s).block_index.set block
          (to_uint32 ((write_alignment c s).write_pos >>> c.get_align)) ∧
    to_uint32 ((write_alignment c s).write_pos >>> c.get_align) <<< 2
      = (write_alignment c s).write_pos := by
  have hlt : s.write_pos < 2 ^ 32 := by
    unfold FATX_SIZE_LIMIT at hw
    omega
  have heq := write_alignment_eq c hc s hlt
  have hp : align_pad s.write_pos < 4 := by
    unfold align_pad
    omega
  have hwp : (write_alignment c s).write_pos = s.write_pos + align_pad s.write_pos := by
    rw [heq]
    by_cases h0 : align_pad s.write_pos = 0
    · rw [if_pos h0, h0]
      rfl
    · rw [if_neg h0]
  have hbytes : (split_fout s).good = true →
      (split_fout (write_alignment c s)).bytes
        = (split_fout s).bytes ++ List.replicate (align_pad s.write_pos) 0 := by
    intro hg
    rw [heq]
    by_cases h0 : align_pad s.write_pos = 0
    · rw [if_pos h0, h0, List.replicate_zero, List.append_nil]
    · rw [if_neg h0]
      exact split_fout_split_write s _ hg
  refine ⟨hp, heq, hbytes, hwp, ?_, ?_, rfl, ?_⟩
  · rw [hwp]
    unfold align_pad
    omega
  · intro m hm hle
    rw [hwp]
    unfold align_pad
    omega
  · rw [hwp, hc, shiftRight_two, Nat.shiftLeft_eq]
    unfold to_uint32 align_pad
    omega

/-- C16, at a cursor of 29: three NUL bytes are written and the cursor moves to 32. -/
theorem C16_alignment_step_witness :
    (ciso.ciso_uint32 4096).get_align = 2 ∧
    demo_state.write_pos ≤ FATX_SIZE_LIMIT ∧
    align_pad demo_state.write_pos = 3 ∧
    (write_alignment (ciso.ciso_uint32 4096) demo_state).write_pos
      = demo_state.write_pos + align_pad demo_state.write_pos :=
  ⟨rfl, write_pos_demo_state_le, by decide,
    (C16_alignment_step (ciso.ciso_uint32 4096) rfl demo_state write_pos_demo_state_le
      0).2.2.2.1⟩

/-! ## The cursor over a whole run -/

end Ciso
